import Mathlib

/-!
# Shallow embedding of the relaynet-core-js core (RAMF codec, PKI, CMS, key stores)

Each definition below is translated from the TypeScript sources of the
repository.  Machine integers are modelled as `Nat`/`Int` (JavaScript numbers
are exact for the magnitudes handled here, and the one conversion from a
`bigint` is only evaluated at exactly representable values); byte buffers are
`List Nat` with each element < 256; fallible code returns `Except`.
JavaScript truthiness on optional strings/numbers (`if (x)`) is modelled
explicitly, since `""`, `0` and `undefined` are all falsy.

External collaborators (WebCrypto, asn1js/pkijs parsers, `TextDecoder`) are
passed in as function parameters: the control flow around them is the
repository's, the collaborators themselves are opaque.
-/

namespace Relaynet

/-- Two lowercase hex digits per byte, as `Buffer.prototype.toString('hex')`. -/
def hexDigit (n : Nat) : Char :=
  if n < 10 then Char.ofNat (48 + n) else Char.ofNat (87 + n)

def byteToHex (b : Nat) : String :=
  String.mk [hexDigit (b / 16 % 16), hexDigit (b % 16)]

def bytesToHex (bytes : List Nat) : String :=
  String.join (bytes.map byteToHex)

/-- Big-endian unsigned value of a byte list. -/
def beBytesToNat : List Nat → Nat
  | [] => 0
  | b :: rest => b * 256 ^ rest.length + beBytesToNat rest

/-- `asn1js.Integer.toBigInt()` on a `valueHex`: big-endian two's-complement
signed interpretation of the content octets. -/
def asn1IntegerValue (bytes : List Nat) : Int :=
  match bytes with
  | [] => 0
  | b :: _ =>
    if 128 ≤ b then (beBytesToNat bytes : Int) - ((256 : Int) ^ bytes.length)
    else (beBytesToNat bytes : Int)

/-- JavaScript truthiness of a `string | undefined` value: `undefined` and
`""` are falsy. -/
def jsStrTruthy : Option String → Bool
  | none => false
  | some s => !s.isEmpty

/-- JavaScript truthiness of a `number | undefined` value: `undefined` and
`0` are falsy. -/
def jsNumTruthy : Option Int → Bool
  | none => false
  | some n => n != 0

/-! ## Key stores (`src/lib/keyStores/PrivateKeyStore.ts`) -/

/-- `SessionPrivateKeyData`: record kept by the backing store for the private
half of a session key pair. -/
structure SessionPrivateKeyData where
  keySerialized : List Nat
  privateAddress : String
  peerPrivateAddress : Option String
deriving Repr, DecidableEq

/-- Errors a private-key-store lookup can raise (`UnknownKeyError`,
`KeyStoreError`). -/
inductive KeyRetrievalError where
  | UnknownKeyError (message : String)
  | KeyStoreError (message : String)
deriving Repr, DecidableEq

/-- The backend primitive `retrieveSessionKeyData(keyIdHex)`, modelled as a
total lookup (`null` becomes `none`); backend exceptions are out of scope of
the claims settled here. -/
def SessionKeyBackend := String → Option SessionPrivateKeyData

/-- `PrivateKeyStore.retrieveSessionKeyDataOrThrowError`: looks the record up
by the hex key id, raises `UnknownKeyError` when the record is missing or
owned by a different node. -/
def retrieveSessionKeyDataOrThrowError (store : SessionKeyBackend)
    (keyId : List Nat) (privateAddress : String) :
    Except KeyRetrievalError SessionPrivateKeyData :=
  let keyIdHex := bytesToHex keyId
  match store keyIdHex with
  | none => .error (.UnknownKeyError s!"Key {keyIdHex} does not exist")
  | some keyData =>
    if keyData.privateAddress ≠ privateAddress then
      .error (.UnknownKeyError "Key is owned by a different node")
    else
      .ok keyData

/-- `PrivateKeyStore.retrieveUnboundSessionKey`.  The guard is
`if (keyData.peerPrivateAddress)`, i.e. JS truthiness of the optional peer
address.  `derDeserializeECDHPrivateKey` is opaque, so the DER-serialized key
is returned. -/
def retrieveUnboundSessionKey (store : SessionKeyBackend)
    (keyId : List Nat) (privateAddress : String) :
    Except KeyRetrievalError (List Nat) := do
  let keyData ← retrieveSessionKeyDataOrThrowError store keyId privateAddress
  if jsStrTruthy keyData.peerPrivateAddress then
    let keyIdHex := bytesToHex keyId
    .error (.UnknownKeyError s!"Key {keyIdHex} is bound")
  else
    .ok keyData.keySerialized

/-- `PrivateKeyStore.retrieveSessionKey`.  The guard is
`if (keyData.peerPrivateAddress && peerPrivateAddress !== keyData.peerPrivateAddress)`. -/
def retrieveSessionKey (store : SessionKeyBackend)
    (keyId : List Nat) (privateAddress : String) (peerPrivateAddress : String) :
    Except KeyRetrievalError (List Nat) := do
  let keyData ← retrieveSessionKeyDataOrThrowError store keyId privateAddress
  let keyIdHex := bytesToHex keyId
  match keyData.peerPrivateAddress with
  | some boundPeer =>
    if !boundPeer.isEmpty ∧ peerPrivateAddress ≠ boundPeer then
      .error (.UnknownKeyError
        (s!"Session key {keyIdHex} is bound to another recipient " ++
          s!"({boundPeer}, not {peerPrivateAddress})"))
    else
      .ok keyData.keySerialized
  | none => .ok keyData.keySerialized

/-! ## RAMF codec (`src/lib/ramf/serialization.ts`) -/

def MAX_RAMF_MESSAGE_LENGTH : Nat := 9437184

def MAX_RECIPIENT_ADDRESS_LENGTH : Nat := 1024

def MAX_ID_LENGTH : Nat := 64

def RAMF_MAX_TTL : Int := 15552000

def MAX_PAYLOAD_LENGTH : Nat := 2 ^ 23 - 1

def MAX_SDU_PLAINTEXT_LENGTH : Nat := 8322048

/-- The 8 ASCII octets of `'Relaynet'`. -/
def FORMAT_SIGNATURE_CONSTANT : List Nat := [0x52, 0x65, 0x6c, 0x61, 0x79, 0x6e, 0x65, 0x74]

/-- Errors of the RAMF codec (`RAMFSyntaxError`, `RAMFValidationError`). -/
inductive RAMFError where
  | RAMFSyntaxError (message : String)
  | RAMFValidationError (message : String)
deriving Repr, DecidableEq

structure MessageFormatSignature where
  concreteMessageType : Nat
  concreteMessageVersion : Nat
deriving Repr, DecidableEq

structure MessageFieldSet where
  recipientAddress : String
  id : String
  date : Int
  ttl : Int
  payload : List Nat
deriving Repr, DecidableEq

/-- A `RAMFMessage` as far as serialization is concerned (dates are epoch
milliseconds). -/
structure RAMFMessageData where
  recipientAddress : String
  id : String
  creationDate : Int
  ttl : Int
  payloadSerialized : List Nat
deriving Repr, DecidableEq

/-- `generateFormatSignature` (`src/lib/messages/formatSignature.ts`):
`'Relaynet'` followed by the concrete message type and version octets. -/
def generateFormatSignature (concreteMessageTypeOctet concreteMessageVersionOctet : Nat) :
    List Nat :=
  FORMAT_SIGNATURE_CONSTANT ++ [concreteMessageTypeOctet, concreteMessageVersionOctet]

/-- Test of the `PRIVATE_ADDRESS_REGEX` (`/^[a-f0-9]+$/`). -/
def matchesPrivateAddressRegex (s : String) : Bool :=
  !s.isEmpty && s.toList.all fun c => (97 ≤ c.toNat && c.toNat ≤ 102) || (48 ≤ c.toNat && c.toNat ≤ 57)

def validateRecipientAddressLength (recipientAddress : String) : Except RAMFError Unit :=
  let length := recipientAddress.length
  if MAX_RECIPIENT_ADDRESS_LENGTH < length then
    .error (.RAMFSyntaxError
      (s!"Recipient address should not span more than {MAX_RECIPIENT_ADDRESS_LENGTH} characters " ++
        s!"(got {length})"))
  else
    .ok ()

/-- `validateRecipientAddress`: `new URL(address)` (modelled by the opaque
predicate `isURL`) must succeed, or else the address must match
`^[a-f0-9]+$`. -/
def validateRecipientAddress (isURL : String → Bool) (recipientAddress : String) :
    Except RAMFError Unit :=
  if isURL recipientAddress then .ok ()
  else if matchesPrivateAddressRegex recipientAddress then .ok ()
  else .error (.RAMFValidationError
    s!"Recipient address should be a valid node address (got: \"{recipientAddress}\")")

def validateMessageIdLength (messageId : String) : Except RAMFError Unit :=
  let length := messageId.length
  if MAX_ID_LENGTH < length then
    .error (.RAMFSyntaxError s!"Id should not span more than {MAX_ID_LENGTH} characters (got {length})")
  else
    .ok ()

def validateTtl (ttl : Int) : Except RAMFError Unit :=
  if ttl < 0 then
    .error (.RAMFSyntaxError "TTL cannot be negative")
  else if RAMF_MAX_TTL < ttl then
    .error (.RAMFSyntaxError s!"TTL must be less than {RAMF_MAX_TTL} (got {ttl})")
  else
    .ok ()

def validatePayloadLength (payloadBuffer : List Nat) : Except RAMFError Unit :=
  let length := payloadBuffer.length
  if MAX_PAYLOAD_LENGTH < length then
    .error (.RAMFSyntaxError s!"Payload size must not exceed 8 MiB (got {length} octets)")
  else
    .ok ()

def validateMessageLength (serialization : List Nat) : Except RAMFError Unit :=
  let byteLength := serialization.length
  if MAX_RAMF_MESSAGE_LENGTH < byteLength then
    .error (.RAMFSyntaxError
      s!"Message should not be longer than 9 MiB (got {byteLength} octets)")
  else
    .ok ()

/-- `serialize`: validate the four field bounds, then compose
`formatSignature || cmsSignedData.sign(fieldSetSerialized, ...)`.
`encodeFieldSet` stands for `makeImplicitlyTaggedSequence(...).toBER()` and
`sign` for `cmsSignedData.sign` with the sender key, certificate and chain
already applied. -/
def ramfSerialize (encodeFieldSet : String → String → Int → Int → List Nat → List Nat)
    (sign : List Nat → List Nat) (message : RAMFMessageData)
    (concreteMessageTypeOctet concreteMessageVersionOctet : Nat) :
    Except RAMFError (List Nat) := do
  validateRecipientAddressLength message.recipientAddress
  validateMessageIdLength message.id
  validateTtl message.ttl
  validatePayloadLength message.payloadSerialized
  let formatSignature := generateFormatSignature concreteMessageTypeOctet concreteMessageVersionOctet
  let fieldSetSerialized := encodeFieldSet message.recipientAddress message.id
    message.creationDate message.ttl message.payloadSerialized
  let signature := sign fieldSetSerialized
  .ok (formatSignature ++ signature)

def decimalToHex (numberDecimal : Nat) : String :=
  "0x" ++ (Nat.toDigits 16 numberDecimal).asString

def validateFileFormatSignature (messageFields : MessageFormatSignature)
    (concreteMessageTypeOctet concreteMessageVersionOctet : Nat) : Except RAMFError Unit :=
  if messageFields.concreteMessageType ≠ concreteMessageTypeOctet then
    let expectedMessageTypeHex := decimalToHex concreteMessageTypeOctet
    let actualMessageTypeHex := decimalToHex messageFields.concreteMessageType
    .error (.RAMFSyntaxError
      s!"Expected concrete message type {expectedMessageTypeHex} but got {actualMessageTypeHex}")
  else if messageFields.concreteMessageVersion ≠ concreteMessageVersionOctet then
    let expectedVersionHex := decimalToHex concreteMessageVersionOctet
    let actualVersionHex := decimalToHex messageFields.concreteMessageVersion
    .error (.RAMFSyntaxError
      s!"Expected concrete message version {expectedVersionHex} but got {actualVersionHex}")
  else
    .ok ()

/-- `parseMessageFormatSignature` on `serialization.slice(0, 10)`. -/
def parseMessageFormatSignature (serialization : List Nat) :
    Except RAMFError MessageFormatSignature :=
  if serialization.length < 10 then
    .error (.RAMFSyntaxError "Serialization is too small to contain RAMF format signature")
  else if (serialization.take 10).take 8 ≠ FORMAT_SIGNATURE_CONSTANT then
    .error (.RAMFSyntaxError "RAMF format signature does not begin with \"Relaynet\"")
  else
    .ok { concreteMessageType := serialization.getD 8 0,
          concreteMessageVersion := serialization.getD 9 0 }

/-- The primitive blocks `asn1js.verifySchema` recovers for the five RAMF
fields; each carries its `valueHex` content octets. -/
structure RawRAMFBlocks where
  recipientAddressValueHex : List Nat
  idValueHex : List Nat
  dateValueHex : List Nat
  ttlValueHex : List Nat
  payloadValueHex : List Nat
deriving Repr, DecidableEq

/-- `getIntegerFromPrimitiveBlock`: re-wrap the content octets as an
`asn1js.Integer` and take `toBigInt()`. -/
def getIntegerFromPrimitiveBlock (valueHex : List Nat) : Int :=
  asn1IntegerValue valueHex

/-- `Number(bigint)`.  Exact for |value| ≤ 2^53; above that JavaScript rounds
to the nearest double, which never moves a value across the `RAMF_MAX_TTL`
or 0 comparison thresholds, and every concrete value this development
evaluates it at (in particular 2^53) is exactly representable. -/
def jsNumberOfBigInt (value : Int) : Int := value

/-- `getDateFromPrimitiveBlock`: `asn1DateTimeToDate` (opaque collaborator)
wrapped into `RAMFValidationError`. -/
def getDateFromPrimitiveBlock (asn1DateTimeToDate : List Nat → Except String Int)
    (valueHex : List Nat) : Except RAMFError Int :=
  match asn1DateTimeToDate valueHex with
  | .ok date => .ok date
  | .error _ => .error (.RAMFValidationError "Message date is invalid")

/-- `parseMessageFields`: run the ASN.1 schema (opaque `schemaVerify`), then
decode the fields; the ttl is parsed as an arbitrary-precision integer and
narrowed with `Number(...)` — there is no range check here. `textDecode`
models `TextDecoder.prototype.decode`. -/
def parseMessageFields (schemaVerify : List Nat → Option RawRAMFBlocks)
    (asn1DateTimeToDate : List Nat → Except String Int)
    (textDecode : List Nat → String)
    (serialization : List Nat) : Except RAMFError MessageFieldSet := do
  match schemaVerify serialization with
  | none => .error (.RAMFSyntaxError "Invalid RAMF fields")
  | some messageBlock =>
    let ttlBigInt := getIntegerFromPrimitiveBlock messageBlock.ttlValueHex
    let date ← getDateFromPrimitiveBlock asn1DateTimeToDate messageBlock.dateValueHex
    .ok { date := date,
          id := textDecode messageBlock.idValueHex,
          payload := messageBlock.payloadValueHex,
          recipientAddress := textDecode messageBlock.recipientAddressValueHex,
          ttl := jsNumberOfBigInt ttlBigInt }

/-- Outcome of `cmsSignedData.verifySignature`; the signer certificate and
attached chain are elided (no claim concerns them). -/
structure SignatureVerification where
  plaintext : List Nat
deriving Repr, DecidableEq

/-- `verifySignature`: wrap any CMS failure into `RAMFValidationError`. -/
def ramfVerifySignature (verify : List Nat → Except String SignatureVerification)
    (cmsSignedDataSerialized : List Nat) : Except RAMFError SignatureVerification :=
  match verify cmsSignedDataSerialized with
  | .ok result => .ok result
  | .error _ => .error (.RAMFValidationError "Invalid RAMF message signature")

/-- The concrete message constructed at the end of `deserialize` (signer
certificate and attached chain elided). -/
structure ConstructedRAMFMessage where
  recipientAddress : String
  payload : List Nat
  creationDate : Int
  id : String
  ttl : Int
deriving Repr, DecidableEq

/-- `deserialize`: length check, format signature, CMS verification, field
parsing, re-validation, construction. -/
def ramfDeserialize (isURL : String → Bool)
    (verify : List Nat → Except String SignatureVerification)
    (schemaVerify : List Nat → Option RawRAMFBlocks)
    (asn1DateTimeToDate : List Nat → Except String Int)
    (textDecode : List Nat → String)
    (serialization : List Nat)
    (concreteMessageTypeOctet concreteMessageVersionOctet : Nat) :
    Except RAMFError ConstructedRAMFMessage := do
  validateMessageLength serialization
  let messageFormatSignature ← parseMessageFormatSignature (serialization.take 10)
  validateFileFormatSignature messageFormatSignature
    concreteMessageTypeOctet concreteMessageVersionOctet
  let signatureVerification ← ramfVerifySignature verify (serialization.drop 10)
  let messageFields ← parseMessageFields schemaVerify asn1DateTimeToDate textDecode
    signatureVerification.plaintext
  validateRecipientAddressLength messageFields.recipientAddress
  validateRecipientAddress isURL messageFields.recipientAddress
  validateMessageIdLength messageFields.id
  validateTtl messageFields.ttl
  validatePayloadLength messageFields.payload
  .ok { recipientAddress := messageFields.recipientAddress,
        payload := messageFields.payload,
        creationDate := messageFields.date,
        id := messageFields.id,
        ttl := messageFields.ttl }

/-! ## X.509 certificates (`src/lib/crypto_wrappers/x509/Certificate.ts`) -/

def MAX_PATH_LENGTH_CONSTRAINT : Nat := 2

/-- OIDs from `src/lib/oids.ts` (the ones this development needs). -/
def OID_COMMON_NAME : String := "2.5.4.3"

def OID_BASIC_CONSTRAINTS : String := "2.5.29.19"

def OID_AUTHORITY_KEY : String := "2.5.29.35"

def OID_SUBJECT_KEY : String := "2.5.29.14"

def OID_CMS_ENVELOPED_DATA : String := "1.2.840.113549.1.7.3"

def OID_ORIGINATOR_EPHEMERAL_CERT_SERIAL_NUMBER : String := "0.4.0.127.0.17.0.1.0"

/-- An ASN.1 attribute value inside a DN (e.g. the `BmpString` common name). -/
inductive Asn1Value where
  | bmpString (value : String)
  | other (der : List Nat)
deriving Repr, DecidableEq

/-- `pkijs.AttributeTypeAndValue`. -/
structure AttributeTypeAndValue where
  type : String
  value : Asn1Value
deriving Repr, DecidableEq

/-- The parsed content of an extension's `extnValue` as the code consumes it. -/
inductive ExtensionValue where
  | basicConstraints (cA : Bool) (pathLenConstraint : Nat)
  | keyIdentifier (keyId : List Nat)
deriving Repr, DecidableEq

structure CertExtension where
  extnID : String
  critical : Bool
  extnValue : ExtensionValue
deriving Repr, DecidableEq

/-- A `pkijs.Certificate` as the wrapped claims consume it: `version` is the
0-based pkijs field (2 encodes X.509 v3); dates are epoch milliseconds;
the subject public key and signature are opaque byte strings. -/
structure PkijsCertificate where
  version : Nat
  serialNumberValueHex : List Nat
  notBefore : Int
  notAfter : Int
  subject : List AttributeTypeAndValue
  issuer : List AttributeTypeAndValue
  extensions : List CertExtension
deriving Repr, DecidableEq

/-- Errors raised by certificate code: `CertificateError` plus a catch-all
for the raw (non-`CertificateError`) exceptions foreign parsers can throw. -/
inductive CertIssueError where
  | CertificateError (message : String)
  | ForeignError (message : String)
deriving Repr, DecidableEq

/-- `date-fns setMilliseconds(date, 0)`: clear the sub-second component of an
epoch-milliseconds timestamp. -/
def setMilliseconds0 (date : Int) : Int :=
  date - date % 1000

/-- `cloneAsn1jsValue`: the source serializes the value to DER and parses it
back purely to avoid object aliasing; on values this is the identity. -/
def cloneAsn1jsValue (value : Asn1Value) : Asn1Value := value

/-- `makeBasicConstraintsExtension`: rejects a `pathLenConstraint` outside
[0, 2] with a `CertificateError`. -/
def makeBasicConstraintsExtension (cA : Bool) (pathLenConstraint : Int) :
    Except CertIssueError CertExtension :=
  if pathLenConstraint < 0 ∨ (MAX_PATH_LENGTH_CONSTRAINT : Int) < pathLenConstraint then
    .error (.CertificateError
      s!"pathLenConstraint must be between 0 and 2 (got {pathLenConstraint})")
  else
    .ok { extnID := OID_BASIC_CONSTRAINTS,
          critical := true,
          extnValue := .basicConstraints cA pathLenConstraint.toNat }

/-- `validateIssuerCertificate`: the issuer must carry a BasicConstraints
extension whose `cA` is true. -/
def validateIssuerCertificate (issuerCertificate : PkijsCertificate) :
    Except CertIssueError Unit :=
  let extensions := issuerCertificate.extensions
  let matchingExtensions := extensions.filter fun e => e.extnID == OID_BASIC_CONSTRAINTS
  match matchingExtensions with
  | [] => .error (.CertificateError "Basic constraints extension is missing from issuer certificate")
  | extension :: _ =>
    match extension.extnValue with
    | .basicConstraints cA _ =>
      if !cA then .error (.CertificateError "Issuer is not a CA")
      else .ok ()
    | _ => .error (.ForeignError "BasicConstraints schema mismatch")

/-- `generatePositiveASN1Integer` applied to the 8 random octets of
`generateRandom64BitValue()`: prepend `0x00` when the leading octet's most
significant bit is set, and return the resulting `valueHex`. -/
def generatePositiveASN1Integer (signedInteger : List Nat) : List Nat :=
  if 127 < signedInteger.headD 0 then 0 :: signedInteger else signedInteger

/-- `FullCertificateIssuanceOptions` (the public key and private key are
opaque; `authorityKeyId`/`subjectKeyId` stand for the SHA-256 digests of the
issuer's and subject's SPKI, computed by the opaque `getPublicKeyDigest`). -/
structure FullCertificateIssuanceOptions where
  commonName : String
  validityStartDate : Option Int
  validityEndDate : Int
  issuerCertificate : Option PkijsCertificate
  isCA : Option Bool
  pathLenConstraint : Option Int
  issuerKeyDigest : List Nat
  subjectKeyDigest : List Nat
deriving Repr, DecidableEq

/-- `Certificate.issue`.  `now` is the current time (epoch ms); `random64`
the fresh `generateRandom64BitValue()` octets.  Signing is opaque and does
not alter the TBS fields the claims are about. -/
def certificateIssue (now : Int) (random64 : List Nat)
    (options : FullCertificateIssuanceOptions) :
    Except CertIssueError PkijsCertificate := do
  let validityStartDate := setMilliseconds0 (options.validityStartDate.getD now)
  let issuerCertificate := options.issuerCertificate
  let validityEndDate := setMilliseconds0 (match issuerCertificate with
    | some issuer => min issuer.notAfter options.validityEndDate
    | none => options.validityEndDate)
  if validityEndDate < validityStartDate then
    .error (.CertificateError "The end date must be later than the start date")
  else do
    match issuerCertificate with
    | some issuer => validateIssuerCertificate issuer
    | none => .ok ()
    let basicConstraints ← makeBasicConstraintsExtension (options.isCA == some true)
      (options.pathLenConstraint.getD 0)
    let extensions : List CertExtension :=
      [basicConstraints,
       { extnID := OID_AUTHORITY_KEY, critical := false,
         extnValue := .keyIdentifier options.issuerKeyDigest },
       { extnID := OID_SUBJECT_KEY, critical := false,
         extnValue := .keyIdentifier options.subjectKeyDigest }]
    let subject : List AttributeTypeAndValue :=
      [{ type := OID_COMMON_NAME, value := .bmpString options.commonName }]
    let issuerDn := match issuerCertificate with
      | some issuer => issuer.subject
      | none => subject
    let issuer := issuerDn.map fun attr =>
      { type := attr.type, value := cloneAsn1jsValue attr.value }
    .ok { version := 2,
          serialNumberValueHex := generatePositiveASN1Integer random64,
          notBefore := validityStartDate,
          notAfter := validityEndDate,
          subject := subject,
          issuer := issuer,
          extensions := extensions }

/-- `Certificate.deserialize`: DER parsing (`derDeserialize` plus the
`pkijs.Certificate` constructor) is the opaque `parse`; on success the result
is wrapped with no semantic validation whatsoever. -/
def certificateDeserialize (parse : List Nat → Option PkijsCertificate)
    (certDer : List Nat) : Except CertIssueError PkijsCertificate :=
  match parse certDer with
  | some pkijsCert => .ok pkijsCert
  | none => .error (.ForeignError "Value is not DER-encoded")

/-- `Certificate.prototype.validate()` at current time `now`. -/
def certificateValidate (now : Int) (cert : PkijsCertificate) :
    Except CertIssueError Unit :=
  let x509CertVersion := cert.version + 1
  if x509CertVersion ≠ 3 then
    .error (.CertificateError
      s!"Only X.509 v3 certificates are supported (got v{x509CertVersion})")
  else if now < cert.notBefore then
    .error (.CertificateError "Certificate is not yet valid")
  else if cert.notAfter < now then
    .error (.CertificateError "Certificate already expired")
  else
    .ok ()

/-! ## CMS EnvelopedData (`src/lib/crypto_wrappers/cms/envelopedData.ts`) -/

def AES_KEY_SIZES : List Int := [128, 192, 256]

structure CMSError where
  message : String
deriving Repr, DecidableEq

/-- A CMS unprotected attribute: OID plus `values` (each value's
`valueHex`). -/
structure CMSAttribute where
  type : String
  values : List (List Nat)
deriving Repr, DecidableEq

/-- A `pkijs.RecipientInfo`: its `variant` (1 = `KeyTransRecipientInfo`,
2 = `KeyAgreeRecipientInfo`); the wrapped value is opaque beyond what
`getOriginatorKey` needs. -/
structure RecipientInfo where
  variant : Int
deriving Repr, DecidableEq

/-- A `pkijs.EnvelopedData` as the wrapped claims consume it. -/
structure PkijsEnvelopedData where
  recipientInfos : List RecipientInfo
  unprotectedAttrs : Option (List CMSAttribute)
deriving Repr, DecidableEq

/-- The class the sole `RecipientInfo` variant selects. -/
inductive EnvelopedDataKind where
  | sessionless
  | session
deriving Repr, DecidableEq

/-- A parsed `ContentInfo`: its content-type OID and, when the content parses
as a `pkijs.EnvelopedData`, that value. -/
structure ParsedContentInfo where
  contentType : String
  envelopedData : Option PkijsEnvelopedData
deriving Repr, DecidableEq

/-- Lines 62–75 of `EnvelopedData.deserialize`: demand exactly one
`RecipientInfo` and select the class by its `variant`. -/
def selectEnvelopedDataClass (pkijsEnvelopedData : PkijsEnvelopedData) :
    Except CMSError (EnvelopedDataKind × PkijsEnvelopedData) :=
  let recipientInfosLength := pkijsEnvelopedData.recipientInfos.length
  if recipientInfosLength ≠ 1 then
    .error ⟨s!"EnvelopedData must have exactly one RecipientInfo (got {recipientInfosLength})"⟩
  else
    let recipientInfo := pkijsEnvelopedData.recipientInfos.headD ⟨0⟩
    if recipientInfo.variant ≠ 1 ∧ recipientInfo.variant ≠ 2 then
      let variant := recipientInfo.variant
      .error ⟨s!"Unsupported RecipientInfo (variant: {variant})"⟩
    else
      .ok (if recipientInfo.variant = 1 then EnvelopedDataKind.sessionless
           else EnvelopedDataKind.session, pkijsEnvelopedData)

/-- `EnvelopedData.deserialize`.  `deserializeContentInfo` (DER parsing) and
the `pkijs.EnvelopedData` schema constructor are folded into the opaque
`parseContentInfo` (a `none` in `envelopedData` models the constructor
throwing). -/
def envelopedDataDeserialize (parseContentInfo : List Nat → Except String ParsedContentInfo)
    (envelopedDataSerialized : List Nat) :
    Except CMSError (EnvelopedDataKind × PkijsEnvelopedData) := do
  let contentInfo ← match parseContentInfo envelopedDataSerialized with
    | .ok contentInfo => pure contentInfo
    | .error _ => .error ⟨"Invalid DER value"⟩
  if contentInfo.contentType ≠ OID_CMS_ENVELOPED_DATA then
    let contentType := contentInfo.contentType
    .error ⟨s!"ContentInfo does not wrap an EnvelopedData value (got OID {contentType})"⟩
  else
    match contentInfo.envelopedData with
    | some pkijsEnvelopedData => selectEnvelopedDataClass pkijsEnvelopedData
    | none => .error ⟨"Invalid EnvelopedData value"⟩

/-- `getAesKeySize`: the guard is the JS-truthy
`if (aesKeySize && !AES_KEY_SIZES.includes(aesKeySize))`, and the result is
`aesKeySize || 128`. -/
def getAesKeySize (aesKeySize : Option Int) : Except CMSError Int :=
  if jsNumTruthy aesKeySize ∧ ¬ (aesKeySize.getD 0 ∈ AES_KEY_SIZES) then
    let size := aesKeySize.getD 0
    .error ⟨s!"Invalid AES key size ({size})"⟩
  else
    .ok (if jsNumTruthy aesKeySize then aesKeySize.getD 0 else 128)

/-- `SessionlessEnvelopedData.encrypt` as far as key-size validation is
concerned: resolve the AES key size, then run the opaque pkijs encryption. -/
def sessionlessEncrypt (pkijsEncrypt : Int → List Nat → PkijsEnvelopedData)
    (plaintext : List Nat) (aesKeySizeOption : Option Int) :
    Except CMSError PkijsEnvelopedData := do
  let aesKeySize ← getAesKeySize aesKeySizeOption
  .ok (pkijsEncrypt aesKeySize plaintext)

/-- `SessionEnvelopedData.encrypt`, same shape: the fresh DH key id becomes
the sole unprotected attribute, then the key size is resolved and the opaque
pkijs encryption runs. -/
def sessionEncrypt (pkijsEncrypt : Int → List Nat → List RecipientInfo)
    (dhKeyId : List Nat) (plaintext : List Nat) (aesKeySizeOption : Option Int) :
    Except CMSError PkijsEnvelopedData := do
  let dhKeyIdAttribute : CMSAttribute :=
    { type := OID_ORIGINATOR_EPHEMERAL_CERT_SERIAL_NUMBER, values := [dhKeyId] }
  let aesKeySize ← getAesKeySize aesKeySizeOption
  .ok { recipientInfos := pkijsEncrypt aesKeySize plaintext,
        unprotectedAttrs := some [dhKeyIdAttribute] }

/-- `extractOriginatorKeyId`. -/
def extractOriginatorKeyId (envelopedData : PkijsEnvelopedData) :
    Except CMSError (List Nat) :=
  let unprotectedAttrs := envelopedData.unprotectedAttrs.getD []
  if unprotectedAttrs.length = 0 then
    .error ⟨"unprotectedAttrs must be present when using channel session"⟩
  else
    let matchingAttrs := unprotectedAttrs.filter fun a =>
      a.type == OID_ORIGINATOR_EPHEMERAL_CERT_SERIAL_NUMBER
    match matchingAttrs with
    | [] => .error ⟨"unprotectedAttrs does not contain originator key id"⟩
    | originatorKeyIdAttr :: _ =>
      let originatorKeyIds := originatorKeyIdAttr.values
      let valueCount := originatorKeyIds.length
      if valueCount ≠ 1 then
        .error ⟨s!"Originator key id attribute must have exactly one value (got {valueCount})"⟩
      else
        .ok (originatorKeyIds.headD [])

/-- `SessionEnvelopedData.getOriginatorKey`: the session key id comes from
the unprotected attribute; the sole `RecipientInfo` must be the key-agreement
variant.  The EC public-key recovery is opaque, so only the key id is
returned. -/
def getOriginatorKey (envelopedData : PkijsEnvelopedData) :
    Except CMSError (List Nat) := do
  let keyId ← extractOriginatorKeyId envelopedData
  let recipientInfo := envelopedData.recipientInfos.headD ⟨0⟩
  if recipientInfo.variant ≠ 2 then
    let variant := recipientInfo.variant
    .error ⟨s!"Expected KeyAgreeRecipientInfo (got variant: {variant})"⟩
  else
    .ok keyId

/-! ## Gateway channel (`src/lib/nodes/channels/GatewayChannel.ts`) -/

def CLOCK_DRIFT_TOLERANCE_HOURS : Int := 3

/-- `getCargoCreationTime()`: clear the sub-second component, then move the
clock back three hours.  JavaScript `Date` arithmetic is modelled at a fixed
UTC offset (epoch milliseconds). -/
def getCargoCreationTime (now : Int) : Int :=
  let creationDate := now - now % 1000
  creationDate - CLOCK_DRIFT_TOLERANCE_HOURS * 60 * 60 * 1000

/-- `getSecondsBetweenDates`: `Math.floor((expiryDate - date) / 1000)`. -/
def getSecondsBetweenDates (date expiryDate : Int) : Int :=
  Int.fdiv (expiryDate - date) 1000

/-- The creation date and TTL of the `Cargo` built for one batch inside
`GatewayChannel.generateCargoes` (addresses, payload encryption and signing
do not affect these two fields). -/
structure CargoTimingFields where
  creationDate : Int
  ttl : Int
deriving Repr, DecidableEq

/-- One iteration of the loop in `GatewayChannel.generateCargoes`: `now` is
the clock when the batch is consumed, `expiryDate` the batch's expiry. -/
def generateCargoForBatch (now expiryDate : Int) : CargoTimingFields :=
  let creationDate := getCargoCreationTime now
  let ttl := getSecondsBetweenDates creationDate expiryDate
  { creationDate := creationDate, ttl := min ttl RAMF_MAX_TTL }

/-! ## Helper lemmas about the RAMF validators -/

theorem validateRecipientAddressLength_ok (s : String) (h : s.length ≤ 1024) :
    validateRecipientAddressLength s = .ok () := by
  unfold validateRecipientAddressLength MAX_RECIPIENT_ADDRESS_LENGTH
  rw [if_neg]
  omega

theorem validateMessageIdLength_ok (s : String) (h : s.length ≤ 64) :
    validateMessageIdLength s = .ok () := by
  unfold validateMessageIdLength MAX_ID_LENGTH
  rw [if_neg]
  omega

theorem validateTtl_ok (ttl : Int) (h0 : 0 ≤ ttl) (h1 : ttl ≤ 15552000) :
    validateTtl ttl = .ok () := by
  unfold validateTtl RAMF_MAX_TTL
  rw [if_neg, if_neg] <;> omega

theorem validateTtl_neg (ttl : Int) (h : ttl < 0) :
    validateTtl ttl = .error (.RAMFSyntaxError "TTL cannot be negative") := by
  unfold validateTtl
  rw [if_pos h]

theorem validateTtl_over (ttl : Int) (h : 15552000 < ttl) :
    ∃ m, validateTtl ttl = .error (.RAMFSyntaxError m) := by
  unfold validateTtl RAMF_MAX_TTL
  rw [if_neg, if_pos h]
  · exact ⟨_, rfl⟩
  · omega

theorem validatePayloadLength_ok (p : List Nat) (h : p.length ≤ 2 ^ 23 - 1) :
    validatePayloadLength p = .ok () := by
  unfold validatePayloadLength MAX_PAYLOAD_LENGTH
  rw [if_neg]
  omega

theorem validateMessageLength_ok (s : List Nat) (h : s.length ≤ 9437184) :
    validateMessageLength s = .ok () := by
  unfold validateMessageLength MAX_RAMF_MESSAGE_LENGTH
  rw [if_neg]
  omega



theorem except_ok_bind {e a b : Type} (x : a) (f : a → Except e b) :
    (Except.ok x >>= f) = f x := rfl

theorem except_error_bind {e a b : Type} (err : e) (f : a → Except e b) :
    ((Except.error err : Except e a) >>= f) = Except.error err := rfl

/-- The first 10 octets of a framed serialization are the format signature. -/
theorem take_format_signature (t v : Nat) (body : List Nat) :
    (generateFormatSignature t v ++ body).take 10 = generateFormatSignature t v := by
  simp [generateFormatSignature, FORMAT_SIGNATURE_CONSTANT]

theorem drop_format_signature (t v : Nat) (body : List Nat) :
    (generateFormatSignature t v ++ body).drop 10 = body := by
  simp [generateFormatSignature, FORMAT_SIGNATURE_CONSTANT]

theorem parseMessageFormatSignature_format (t v : Nat) :
    parseMessageFormatSignature (generateFormatSignature t v) = .ok ⟨t, v⟩ := by
  simp [parseMessageFormatSignature, generateFormatSignature, FORMAT_SIGNATURE_CONSTANT, List.getD]

theorem validateFileFormatSignature_match (t v : Nat) :
    validateFileFormatSignature ⟨t, v⟩ t v = .ok () := by
  simp [validateFileFormatSignature]

/-- Once the framing, signature verification and field parsing succeed,
`deserialize` is exactly the re-validation of the recovered fields followed
by message construction. -/
theorem ramfDeserialize_reaches_field_validation
    (isURL : String → Bool) (verify : List Nat → Except String SignatureVerification)
    (schemaVerify : List Nat → Option RawRAMFBlocks)
    (asn1DateTimeToDate : List Nat → Except String Int) (textDecode : List Nat → String)
    (body plaintext : List Nat) (fields : MessageFieldSet) (t v : Nat)
    (hlen : (generateFormatSignature t v ++ body).length ≤ 9437184)
    (hver : verify body = .ok ⟨plaintext⟩)
    (hfields : parseMessageFields schemaVerify asn1DateTimeToDate textDecode plaintext = .ok fields) :
    ramfDeserialize isURL verify schemaVerify asn1DateTimeToDate textDecode
        (generateFormatSignature t v ++ body) t v = (do
      validateRecipientAddressLength fields.recipientAddress
      validateRecipientAddress isURL fields.recipientAddress
      validateMessageIdLength fields.id
      validateTtl fields.ttl
      validatePayloadLength fields.payload
      pure { recipientAddress := fields.recipientAddress, payload := fields.payload,
             creationDate := fields.date, id := fields.id, ttl := fields.ttl }) := by
  unfold ramfDeserialize
  rw [validateMessageLength_ok _ hlen, except_ok_bind, take_format_signature,
    drop_format_signature, parseMessageFormatSignature_format, except_ok_bind,
    validateFileFormatSignature_match, except_ok_bind]
  rw [show ramfVerifySignature verify body = .ok ⟨plaintext⟩ by
    simp [ramfVerifySignature, hver]]
  rw [except_ok_bind, hfields, except_ok_bind]
  rfl

instance {e a : Type} [DecidableEq e] [DecidableEq a] : DecidableEq (Except e a) := fun x y =>
  match x, y with
  | .ok x, .ok y =>
    if h : x = y then isTrue (by rw [h]) else isFalse (fun hh => by cases hh; exact h rfl)
  | .error x, .error y =>
    if h : x = y then isTrue (by rw [h]) else isFalse (fun hh => by cases hh; exact h rfl)
  | .ok _, .error _ => isFalse (fun hh => Except.noConfusion hh)
  | .error _, .ok _ => isFalse (fun hh => Except.noConfusion hh)

/-- `serialize` succeeds, returning the composed bytes, whenever the four
field bounds hold — irrespective of the sizes of the signature or of the
composition. -/
theorem ramfSerialize_ok (encodeFieldSet : String → String → Int → Int → List Nat → List Nat)
    (sign : List Nat → List Nat) (message : RAMFMessageData) (t v : Nat)
    (h1 : message.recipientAddress.length ≤ 1024) (h2 : message.id.length ≤ 64)
    (h3 : 0 ≤ message.ttl) (h4 : message.ttl ≤ 15552000)
    (h5 : message.payloadSerialized.length ≤ 2 ^ 23 - 1) :
    ramfSerialize encodeFieldSet sign message t v =
      .ok (generateFormatSignature t v ++
        sign (encodeFieldSet message.recipientAddress message.id message.creationDate
          message.ttl message.payloadSerialized)) := by
  unfold ramfSerialize
  rw [validateRecipientAddressLength_ok _ h1, except_ok_bind,
    validateMessageIdLength_ok _ h2, except_ok_bind,
    validateTtl_ok _ h3 h4, except_ok_bind,
    validatePayloadLength_ok _ h5, except_ok_bind]

/-- `serialize` propagates a TTL validation error. -/
theorem ramfSerialize_ttl_error (encodeFieldSet : String → String → Int → Int → List Nat → List Nat)
    (sign : List Nat → List Nat) (message : RAMFMessageData) (t v : Nat) (err : RAMFError)
    (h1 : message.recipientAddress.length ≤ 1024) (h2 : message.id.length ≤ 64)
    (h3 : validateTtl message.ttl = .error err) :
    ramfSerialize encodeFieldSet sign message t v = .error err := by
  unfold ramfSerialize
  rw [validateRecipientAddressLength_ok _ h1, except_ok_bind,
    validateMessageIdLength_ok _ h2, except_ok_bind, h3, except_error_bind]

theorem validateRecipientAddress_of_url (isURL : String → Bool) (a : String)
    (h : isURL a = true) : validateRecipientAddress isURL a = .ok () := by
  simp [validateRecipientAddress, h]

/-- `deserialize` outcome once the pipeline reaches field re-validation,
with a valid address, id and payload: the TTL decides. -/
theorem ramfDeserialize_ttl_decides
    (isURL : String → Bool) (verify : List Nat → Except String SignatureVerification)
    (schemaVerify : List Nat → Option RawRAMFBlocks)
    (asn1DateTimeToDate : List Nat → Except String Int) (textDecode : List Nat → String)
    (body plaintext : List Nat) (fields : MessageFieldSet) (t v : Nat)
    (hlen : (generateFormatSignature t v ++ body).length ≤ 9437184)
    (hver : verify body = .ok ⟨plaintext⟩)
    (hfields : parseMessageFields schemaVerify asn1DateTimeToDate textDecode plaintext = .ok fields)
    (haddrLen : fields.recipientAddress.length ≤ 1024)
    (haddr : isURL fields.recipientAddress = true)
    (hid : fields.id.length ≤ 64) (hpay : fields.payload.length ≤ 2 ^ 23 - 1) :
    ramfDeserialize isURL verify schemaVerify asn1DateTimeToDate textDecode
        (generateFormatSignature t v ++ body) t v = (do
      validateTtl fields.ttl
      pure { recipientAddress := fields.recipientAddress, payload := fields.payload,
             creationDate := fields.date, id := fields.id, ttl := fields.ttl }) := by
  rw [ramfDeserialize_reaches_field_validation isURL verify schemaVerify asn1DateTimeToDate
    textDecode body plaintext fields t v hlen hver hfields]
  rw [validateRecipientAddressLength_ok _ haddrLen, except_ok_bind,
    validateRecipientAddress_of_url _ _ haddr, except_ok_bind,
    validateMessageIdLength_ok _ hid, except_ok_bind]
  cases httl : validateTtl fields.ttl with
  | ok u =>
    cases u
    rw [except_ok_bind, validatePayloadLength_ok _ hpay, except_ok_bind]
  | error e => rfl

/-- C4: RAMF serialization and deserialization accept a ttl of exactly 0 and
of exactly 15_552_000, and raise `RAMFSyntaxError` for every ttl below 0 or
above 15_552_000 (in particular −1 and 15_552_001 fail, through the general
bounds proved here). -/
theorem ramf_ttl_boundary_behavior :
    (∀ (encodeFieldSet : String → String → Int → Int → List Nat → List Nat)
       (sign : List Nat → List Nat) (message : RAMFMessageData) (t v : Nat),
      message.recipientAddress.length ≤ 1024 → message.id.length ≤ 64 →
      message.payloadSerialized.length ≤ 2 ^ 23 - 1 →
      ((message.ttl = 0 ∨ message.ttl = 15552000 →
        ∃ out, ramfSerialize encodeFieldSet sign message t v = .ok out) ∧
       (message.ttl < 0 →
        ramfSerialize encodeFieldSet sign message t v =
          .error (.RAMFSyntaxError "TTL cannot be negative")) ∧
       (15552000 < message.ttl →
        ∃ m, ramfSerialize encodeFieldSet sign message t v = .error (.RAMFSyntaxError m)))) ∧
    (∀ (isURL : String → Bool) (verify : List Nat → Except String SignatureVerification)
       (schemaVerify : List Nat → Option RawRAMFBlocks)
       (asn1DateTimeToDate : List Nat → Except String Int) (textDecode : List Nat → String)
       (body plaintext : List Nat) (fields : MessageFieldSet) (t v : Nat),
      (generateFormatSignature t v ++ body).length ≤ 9437184 →
      verify body = .ok ⟨plaintext⟩ →
      parseMessageFields schemaVerify asn1DateTimeToDate textDecode plaintext = .ok fields →
      fields.recipientAddress.length ≤ 1024 → isURL fields.recipientAddress = true →
      fields.id.length ≤ 64 → fields.payload.length ≤ 2 ^ 23 - 1 →
      ((fields.ttl = 0 ∨ fields.ttl = 15552000 →
        ∃ msg, ramfDeserialize isURL verify schemaVerify asn1DateTimeToDate textDecode
            (generateFormatSignature t v ++ body) t v = .ok msg ∧ msg.ttl = fields.ttl) ∧
       (fields.ttl < 0 →
        ramfDeserialize isURL verify schemaVerify asn1DateTimeToDate textDecode
            (generateFormatSignature t v ++ body) t v =
          .error (.RAMFSyntaxError "TTL cannot be negative")) ∧
       (15552000 < fields.ttl →
        ∃ m, ramfDeserialize isURL verify schemaVerify asn1DateTimeToDate textDecode
            (generateFormatSignature t v ++ body) t v = .error (.RAMFSyntaxError m)))) := by
  constructor
  · intro encodeFieldSet sign message t v h1 h2 h5
    refine ⟨?_, ?_, ?_⟩
    · intro httl
      refine ⟨_, ramfSerialize_ok encodeFieldSet sign message t v h1 h2 ?_ ?_ h5⟩ <;>
        rcases httl with h | h <;> omega
    · intro httl
      exact ramfSerialize_ttl_error encodeFieldSet sign message t v _ h1 h2
        (validateTtl_neg _ httl)
    · intro httl
      obtain ⟨m, hm⟩ := validateTtl_over _ httl
      exact ⟨m, ramfSerialize_ttl_error encodeFieldSet sign message t v _ h1 h2 hm⟩
  · intro isURL verify schemaVerify asn1DateTimeToDate textDecode body plaintext fields t v
      hlen hver hfields haddrLen haddr hid hpay
    have hbase := ramfDeserialize_ttl_decides isURL verify schemaVerify asn1DateTimeToDate
      textDecode body plaintext fields t v hlen hver hfields haddrLen haddr hid hpay
    refine ⟨?_, ?_, ?_⟩
    · intro httl
      have hok : validateTtl fields.ttl = .ok () := by
        rcases httl with h | h <;> exact validateTtl_ok _ (by omega) (by omega)
      rw [hbase, hok, except_ok_bind]
      exact ⟨_, rfl, rfl⟩
    · intro httl
      rw [hbase, validateTtl_neg _ httl, except_error_bind]
    · intro httl
      obtain ⟨m, hm⟩ := validateTtl_over _ httl
      rw [hbase, hm, except_error_bind]
      exact ⟨m, rfl⟩

/-- Witness for C4: ttl 0 and 15_552_000 are accepted, −1 and 15_552_001
rejected, at concrete inputs. -/
theorem ramf_ttl_boundary_behavior_witness :
    (∃ out, ramfSerialize (fun _ _ _ _ _ => []) (fun _ => [0])
      ⟨"0aa", "m1", 0, 0, []⟩ 80 0 = .ok out) ∧
    (∃ out, ramfSerialize (fun _ _ _ _ _ => []) (fun _ => [0])
      ⟨"0aa", "m1", 0, 15552000, []⟩ 80 0 = .ok out) ∧
    ramfSerialize (fun _ _ _ _ _ => []) (fun _ => [0]) ⟨"0aa", "m1", 0, -1, []⟩ 80 0 =
      .error (.RAMFSyntaxError "TTL cannot be negative") ∧
    (∃ m, ramfSerialize (fun _ _ _ _ _ => []) (fun _ => [0])
      ⟨"0aa", "m1", 0, 15552001, []⟩ 80 0 = .error (.RAMFSyntaxError m)) ∧
    (∃ msg, ramfDeserialize (fun _ => true) (fun _ => .ok ⟨[]⟩)
      (fun _ => some ⟨[], [], [], [], []⟩) (fun _ => .ok 0) (fun _ => "0aa")
      (generateFormatSignature 80 0 ++ []) 80 0 = .ok msg ∧ msg.ttl = 0) := by
  have hs := ramf_ttl_boundary_behavior.1 (fun _ _ _ _ _ => []) (fun _ => [0])
  have hd := ramf_ttl_boundary_behavior.2 (fun _ => true) (fun _ => .ok ⟨[]⟩)
    (fun _ => some ⟨[], [], [], [], []⟩) (fun _ => .ok 0) (fun _ => "0aa") [] []
    ⟨"0aa", "0aa", 0, 0, []⟩ 80 0 (by decide) rfl rfl (by decide) rfl (by decide) (by decide)
  refine ⟨?_, ?_, ?_, ?_, ?_⟩
  · exact (hs ⟨"0aa", "m1", 0, 0, []⟩ 80 0 (by decide) (by decide) (by decide)).1 (Or.inl rfl)
  · exact (hs ⟨"0aa", "m1", 0, 15552000, []⟩ 80 0 (by decide) (by decide) (by decide)).1
      (Or.inr rfl)
  · exact (hs ⟨"0aa", "m1", 0, -1, []⟩ 80 0 (by decide) (by decide) (by decide)).2.1 (by decide)
  · exact (hs ⟨"0aa", "m1", 0, 15552001, []⟩ 80 0 (by decide) (by decide) (by decide)).2.2
      (by decide)
  · exact hd.1 (Or.inl rfl)

theorem validateMessageLength_err (s : List Nat) (len : Nat) (hlen : len = s.length)
    (h : 9437184 < len) :
    validateMessageLength s =
      .error (.RAMFSyntaxError s!"Message should not be longer than 9 MiB (got {len} octets)") := by
  subst hlen
  unfold validateMessageLength MAX_RAMF_MESSAGE_LENGTH
  rw [if_pos h]

/-- A CMS signature standing in for one whose `SignedData` (payload plus
certificate chain) pushes the composed message past 9 MiB. -/
def oversizedSignature : List Nat → List Nat := fun _ => List.replicate 9437185 0

/-- A message whose five fields all satisfy the serialize-time bounds. -/
def smallValidMessage : RAMFMessageData :=
  { recipientAddress := "0aa", id := "m1", creationDate := 0, ttl := 1000,
    payloadSerialized := [] }

/-- Counterexample to C2 as stated: `serialize` succeeds on a message whose
composed serialization is 9_437_195 bytes — it never checks the composed
length, so it does not fail when the result exceeds 9_437_184 bytes. -/
theorem ramf_serialize_size_cap_counterexample :
    ramfSerialize (fun _ _ _ _ _ => []) oversizedSignature smallValidMessage 67 0 =
      .ok (generateFormatSignature 67 0 ++ oversizedSignature []) ∧
    MAX_RAMF_MESSAGE_LENGTH <
      (generateFormatSignature 67 0 ++ oversizedSignature []).length := by
  constructor
  · exact ramfSerialize_ok (fun _ _ _ _ _ => []) oversizedSignature smallValidMessage 67 0
      (by decide) (by decide) (by decide) (by decide) (by decide)
  · have hlen : (oversizedSignature []).length = 9437185 :=
      List.length_replicate 9437185 0
    have happ : (generateFormatSignature 67 0 ++ oversizedSignature []).length =
        (generateFormatSignature 67 0).length + (oversizedSignature []).length :=
      List.length_append _ _
    rw [happ, hlen]
    decide

/-- C2 (amended): `serialize` performs no check of the composed length — any
successful run returns exactly `formatSignature ++ signature`, whatever its
size; the 9_437_184-byte bound is enforced at the start of `deserialize`,
which raises `RAMFSyntaxError` for every longer input. -/
theorem ramf_size_cap_enforced_on_deserialize_only :
    (∀ (encodeFieldSet : String → String → Int → Int → List Nat → List Nat)
       (sign : List Nat → List Nat) (message : RAMFMessageData) (t v : Nat)
       (out : List Nat),
      ramfSerialize encodeFieldSet sign message t v = .ok out →
      out = generateFormatSignature t v ++
        sign (encodeFieldSet message.recipientAddress message.id message.creationDate
          message.ttl message.payloadSerialized)) ∧
    (∀ (isURL : String → Bool) (verify : List Nat → Except String SignatureVerification)
       (schemaVerify : List Nat → Option RawRAMFBlocks)
       (asn1DateTimeToDate : List Nat → Except String Int) (textDecode : List Nat → String)
       (serialization : List Nat) (t v : Nat) (len : Nat),
      len = serialization.length → 9437184 < len →
      ramfDeserialize isURL verify schemaVerify asn1DateTimeToDate textDecode
          serialization t v =
        .error (.RAMFSyntaxError s!"Message should not be longer than 9 MiB (got {len} octets)")) := by
  constructor
  · intro encodeFieldSet sign message t v out h
    unfold ramfSerialize at h
    cases hva : validateRecipientAddressLength message.recipientAddress with
    | error e => rw [hva, except_error_bind] at h; exact Except.noConfusion h
    | ok u =>
      cases u
      rw [hva, except_ok_bind] at h
      cases hvb : validateMessageIdLength message.id with
      | error e => rw [hvb, except_error_bind] at h; exact Except.noConfusion h
      | ok u =>
        cases u
        rw [hvb, except_ok_bind] at h
        cases hvc : validateTtl message.ttl with
        | error e => rw [hvc, except_error_bind] at h; exact Except.noConfusion h
        | ok u =>
          cases u
          rw [hvc, except_ok_bind] at h
          cases hvd : validatePayloadLength message.payloadSerialized with
          | error e => rw [hvd, except_error_bind] at h; exact Except.noConfusion h
          | ok u =>
            cases u
            rw [hvd, except_ok_bind] at h
            cases h
            rfl
  · intro isURL verify schemaVerify asn1DateTimeToDate textDecode serialization t v len
      hlen hbig
    unfold ramfDeserialize
    rw [validateMessageLength_err serialization len hlen hbig, except_error_bind]

/-- Witness for the amended C2 at concrete inputs. -/
theorem ramf_size_cap_enforced_on_deserialize_only_witness :
    (generateFormatSignature 67 0 ++ oversizedSignature []) =
      generateFormatSignature 67 0 ++
        oversizedSignature ((fun _ _ _ _ _ => ([] : List Nat)) "0aa" "m1" (0 : Int) (1000 : Int)
          ([] : List Nat)) ∧
    ramfDeserialize (fun _ => true) (fun _ => .ok ⟨[]⟩) (fun _ => none) (fun _ => .ok 0)
        (fun _ => "") (oversizedSignature []) 67 0 =
      .error (.RAMFSyntaxError "Message should not be longer than 9 MiB (got 9437185 octets)") := by
  constructor
  · exact ramf_size_cap_enforced_on_deserialize_only.1 (fun _ _ _ _ _ => [])
      oversizedSignature smallValidMessage 67 0 _
      (ramfSerialize_ok (fun _ _ _ _ _ => []) oversizedSignature smallValidMessage 67 0
        (by decide) (by decide) (by decide) (by decide) (by decide))
  · exact ramf_size_cap_enforced_on_deserialize_only.2 (fun _ => true) (fun _ => .ok ⟨[]⟩)
      (fun _ => none) (fun _ => .ok 0) (fun _ => "") (oversizedSignature []) 67 0 9437185
      (List.length_replicate 9437185 0).symm (by norm_num)

theorem validateTtl_over_msg (ttl : Int) (h0 : ¬ ttl < 0) (h : RAMF_MAX_TTL < ttl) :
    validateTtl ttl =
      .error (.RAMFSyntaxError s!"TTL must be less than {RAMF_MAX_TTL} (got {ttl})") := by
  unfold validateTtl
  rw [if_neg h0, if_pos h]

/-- Content octets of an ASN.1 INTEGER whose value is 2^53 (the least value
above `Number.MAX_SAFE_INTEGER`). -/
def ttl2pow53ValueHex : List Nat := [0x20, 0, 0, 0, 0, 0, 0]

/-- An ASN.1 schema-verification stub recovering a field set whose ttl
INTEGER is 2^53. -/
def schemaVerify2pow53 : List Nat → Option RawRAMFBlocks :=
  fun _ => some { recipientAddressValueHex := [], idValueHex := [], dateValueHex := [],
                  ttlValueHex := ttl2pow53ValueHex, payloadValueHex := [] }

/-- Counterexample to C7 as stated: with a ttl INTEGER of 2^53 (which
exceeds 2^53 − 1), field parsing does not fail — it returns the narrowed
value — and deserialization fails only at the 15_552_000 TTL-cap check,
with that check's error. -/
theorem ramf_ttl_no_early_narrowing_failure_counterexample :
    (9007199254740991 : Int) < asn1IntegerValue ttl2pow53ValueHex ∧
    parseMessageFields schemaVerify2pow53 (fun _ => .ok 0) (fun _ => "0aa") [] =
      .ok { recipientAddress := "0aa", id := "0aa", date := 0,
            ttl := 9007199254740992, payload := [] } ∧
    ramfDeserialize (fun _ => true) (fun _ => .ok ⟨[]⟩) schemaVerify2pow53
        (fun _ => .ok 0) (fun _ => "0aa") (generateFormatSignature 80 0 ++ []) 80 0 =
      .error (.RAMFSyntaxError "TTL must be less than 15552000 (got 9007199254740992)") := by
  refine ⟨by decide, by decide, ?_⟩
  rw [ramfDeserialize_ttl_decides (fun _ => true) (fun _ => .ok ⟨[]⟩) schemaVerify2pow53
    (fun _ => .ok 0) (fun _ => "0aa") [] []
    ⟨"0aa", "0aa", 0, 9007199254740992, []⟩ 80 0
    (by decide) rfl (by decide) (by decide) rfl (by decide) (by decide)]
  decide

/-- C7 (amended): the ttl is parsed as an arbitrary-precision integer from
the ASN.1 INTEGER and narrowed with `Number(...)`; no 2^53 − 1 bound is
checked during parsing — a ttl above the cap (in particular one exceeding
2^53 − 1) is rejected only by the 15_552_000 TTL-cap check during field
re-validation. -/
theorem ramf_ttl_bigint_narrowed_without_53bit_check :
    (∀ (schemaVerify : List Nat → Option RawRAMFBlocks)
       (asn1DateTimeToDate : List Nat → Except String Int) (textDecode : List Nat → String)
       (plaintext : List Nat) (blocks : RawRAMFBlocks) (date : Int),
      schemaVerify plaintext = some blocks →
      asn1DateTimeToDate blocks.dateValueHex = .ok date →
      parseMessageFields schemaVerify asn1DateTimeToDate textDecode plaintext =
        .ok { recipientAddress := textDecode blocks.recipientAddressValueHex,
              id := textDecode blocks.idValueHex, date := date,
              ttl := jsNumberOfBigInt (asn1IntegerValue blocks.ttlValueHex),
              payload := blocks.payloadValueHex }) ∧
    (∀ (isURL : String → Bool) (verify : List Nat → Except String SignatureVerification)
       (schemaVerify : List Nat → Option RawRAMFBlocks)
       (asn1DateTimeToDate : List Nat → Except String Int) (textDecode : List Nat → String)
       (body plaintext : List Nat) (fields : MessageFieldSet) (t v : Nat),
      (generateFormatSignature t v ++ body).length ≤ 9437184 →
      verify body = .ok ⟨plaintext⟩ →
      parseMessageFields schemaVerify asn1DateTimeToDate textDecode plaintext = .ok fields →
      fields.recipientAddress.length ≤ 1024 → isURL fields.recipientAddress = true →
      fields.id.length ≤ 64 → fields.payload.length ≤ 2 ^ 23 - 1 →
      (9007199254740991 : Int) < fields.ttl →
      ∀ ttl : Int, ttl = fields.ttl →
      ramfDeserialize isURL verify schemaVerify asn1DateTimeToDate textDecode
          (generateFormatSignature t v ++ body) t v =
        .error (.RAMFSyntaxError s!"TTL must be less than {RAMF_MAX_TTL} (got {ttl})")) := by
  constructor
  · intro schemaVerify asn1DateTimeToDate textDecode plaintext blocks date hschema hdate
    unfold parseMessageFields getDateFromPrimitiveBlock
    rw [hschema]
    dsimp only
    rw [hdate]
    rfl
  · intro isURL verify schemaVerify asn1DateTimeToDate textDecode body plaintext fields t v
      hlen hver hfields haddrLen haddr hid hpay hbig ttl httl
    subst httl
    rw [ramfDeserialize_ttl_decides isURL verify schemaVerify asn1DateTimeToDate textDecode
      body plaintext fields t v hlen hver hfields haddrLen haddr hid hpay]
    rw [validateTtl_over_msg fields.ttl (by omega) (by unfold RAMF_MAX_TTL; omega)]
    rfl

/-- Witness for the amended C7 at a concrete ttl INTEGER of 2^54. -/
theorem ramf_ttl_bigint_narrowed_without_53bit_check_witness :
    parseMessageFields (fun _ => some ⟨[], [], [], [0x40, 0, 0, 0, 0, 0, 0], []⟩)
        (fun _ => .ok 5) (fun _ => "0bb") [9] =
      .ok { recipientAddress := "0bb", id := "0bb", date := 5,
            ttl := jsNumberOfBigInt (asn1IntegerValue [0x40, 0, 0, 0, 0, 0, 0]),
            payload := [] } ∧
    ramfDeserialize (fun _ => true) (fun _ => .ok ⟨[9]⟩)
        (fun _ => some ⟨[], [], [], [0x40, 0, 0, 0, 0, 0, 0], []⟩)
        (fun _ => .ok 5) (fun _ => "0bb") (generateFormatSignature 67 0 ++ [1]) 67 0 =
      .error (.RAMFSyntaxError "TTL must be less than 15552000 (got 18014398509481984)") := by
  constructor
  · exact ramf_ttl_bigint_narrowed_without_53bit_check.1
      (fun _ => some ⟨[], [], [], [0x40, 0, 0, 0, 0, 0, 0], []⟩) (fun _ => .ok 5)
      (fun _ => "0bb") [9] ⟨[], [], [], [0x40, 0, 0, 0, 0, 0, 0], []⟩ 5 rfl rfl
  · exact ramf_ttl_bigint_narrowed_without_53bit_check.2 (fun _ => true) (fun _ => .ok ⟨[9]⟩)
      (fun _ => some ⟨[], [], [], [0x40, 0, 0, 0, 0, 0, 0], []⟩) (fun _ => .ok 5)
      (fun _ => "0bb") [1] [9] ⟨"0bb", "0bb", 5, 18014398509481984, []⟩ 67 0
      (by decide) rfl (by decide) (by decide) rfl (by decide) (by decide) (by decide)
      18014398509481984 rfl

theorem validateRecipientAddress_err (isURL : String → Bool) (a : String)
    (h1 : isURL a = false) (h2 : matchesPrivateAddressRegex a = false) :
    validateRecipientAddress isURL a =
      .error (.RAMFValidationError
        s!"Recipient address should be a valid node address (got: \"{a}\")") := by
  simp [validateRecipientAddress, h1, h2]

/-- C9: `serialize` checks only the length of the recipient address, never
its syntax — it succeeds for any in-bounds address, including `"ABC"`, which
is uppercase and so matches neither branch of the URL-or-hex test; the
syntax check (a `RAMFValidationError`) runs only inside `deserialize`. -/
theorem ramf_address_syntax_checked_only_on_deserialize :
    (∀ (encodeFieldSet : String → String → Int → Int → List Nat → List Nat)
       (sign : List Nat → List Nat) (message : RAMFMessageData) (t v : Nat),
      message.recipientAddress.length ≤ 1024 → message.id.length ≤ 64 →
      0 ≤ message.ttl → message.ttl ≤ 15552000 →
      message.payloadSerialized.length ≤ 2 ^ 23 - 1 →
      ∃ out, ramfSerialize encodeFieldSet sign message t v = .ok out) ∧
    matchesPrivateAddressRegex "ABC" = false ∧
    (∃ out, ramfSerialize (fun _ _ _ _ _ => []) (fun _ => [0])
      { recipientAddress := "ABC", id := "m1", creationDate := 0, ttl := 0,
        payloadSerialized := [] } 80 0 = .ok out) ∧
    (∀ (isURL : String → Bool) (verify : List Nat → Except String SignatureVerification)
       (schemaVerify : List Nat → Option RawRAMFBlocks)
       (asn1DateTimeToDate : List Nat → Except String Int) (textDecode : List Nat → String)
       (body plaintext : List Nat) (fields : MessageFieldSet) (t v : Nat),
      (generateFormatSignature t v ++ body).length ≤ 9437184 →
      verify body = .ok ⟨plaintext⟩ →
      parseMessageFields schemaVerify asn1DateTimeToDate textDecode plaintext = .ok fields →
      fields.recipientAddress.length ≤ 1024 →
      isURL fields.recipientAddress = false →
      matchesPrivateAddressRegex fields.recipientAddress = false →
      ∀ a : String, a = fields.recipientAddress →
      ramfDeserialize isURL verify schemaVerify asn1DateTimeToDate textDecode
          (generateFormatSignature t v ++ body) t v =
        .error (.RAMFValidationError
          s!"Recipient address should be a valid node address (got: \"{a}\")")) := by
  refine ⟨?_, by decide, ?_, ?_⟩
  · intro encodeFieldSet sign message t v h1 h2 h3 h4 h5
    exact ⟨_, ramfSerialize_ok encodeFieldSet sign message t v h1 h2 h3 h4 h5⟩
  · exact ⟨_, ramfSerialize_ok (fun _ _ _ _ _ => []) (fun _ => [0])
      { recipientAddress := "ABC", id := "m1", creationDate := 0, ttl := 0,
        payloadSerialized := [] } 80 0 (by decide) (by decide) (by decide) (by decide)
      (by decide)⟩
  · intro isURL verify schemaVerify asn1DateTimeToDate textDecode body plaintext fields t v
      hlen hver hfields haddrLen hurl hregex a ha
    subst ha
    rw [ramfDeserialize_reaches_field_validation isURL verify schemaVerify asn1DateTimeToDate
      textDecode body plaintext fields t v hlen hver hfields]
    rw [validateRecipientAddressLength_ok _ haddrLen, except_ok_bind,
      validateRecipientAddress_err isURL _ hurl hregex, except_error_bind]

/-- Witness for C9: the uppercase-hex address `"ABC"` passes `serialize` and
fails `deserialize` at concrete inputs. -/
theorem ramf_address_syntax_checked_only_on_deserialize_witness :
    (∃ out, ramfSerialize (fun _ _ _ _ _ => []) (fun _ => [0])
      { recipientAddress := "ABC", id := "m1", creationDate := 0, ttl := 0,
        payloadSerialized := [] } 80 0 = .ok out) ∧
    ramfDeserialize (fun _ => false) (fun _ => .ok ⟨[]⟩) (fun _ => some ⟨[], [], [], [], []⟩)
        (fun _ => .ok 0) (fun _ => "ABC") (generateFormatSignature 80 0 ++ []) 80 0 =
      .error (.RAMFValidationError
        "Recipient address should be a valid node address (got: \"ABC\")") := by
  constructor
  · exact ramf_address_syntax_checked_only_on_deserialize.2.2.1
  · exact ramf_address_syntax_checked_only_on_deserialize.2.2.2 (fun _ => false)
      (fun _ => .ok ⟨[]⟩) (fun _ => some ⟨[], [], [], [], []⟩) (fun _ => .ok 0)
      (fun _ => "ABC") [] [] ⟨"ABC", "ABC", 0, 0, []⟩ 80 0
      (by decide) rfl rfl (by decide) rfl (by decide) "ABC" rfl

/-! ## Claim C1: session-key retrieval -/

theorem isEmpty_eq_false_of_ne (s : String) (h : s ≠ "") : s.isEmpty = false := by
  cases hs : s.isEmpty
  · rfl
  · exact absurd ((String.isEmpty_iff s).mp hs) h

theorem retrieveSessionKeyDataOrThrowError_none (store : SessionKeyBackend)
    (keyId : List Nat) (privateAddress : String) (keyIdHex : String)
    (hhex : keyIdHex = bytesToHex keyId) (h : store keyIdHex = none) :
    retrieveSessionKeyDataOrThrowError store keyId privateAddress =
      .error (.UnknownKeyError s!"Key {keyIdHex} does not exist") := by
  subst hhex
  unfold retrieveSessionKeyDataOrThrowError
  dsimp only
  rw [h]

theorem retrieveSessionKeyDataOrThrowError_wrong_owner (store : SessionKeyBackend)
    (keyId : List Nat) (privateAddress : String) (d : SessionPrivateKeyData)
    (h : store (bytesToHex keyId) = some d) (hown : d.privateAddress ≠ privateAddress) :
    retrieveSessionKeyDataOrThrowError store keyId privateAddress =
      .error (.UnknownKeyError "Key is owned by a different node") := by
  unfold retrieveSessionKeyDataOrThrowError
  dsimp only
  rw [h]
  dsimp only
  rw [if_pos hown]

theorem retrieveSessionKeyDataOrThrowError_found (store : SessionKeyBackend)
    (keyId : List Nat) (privateAddress : String) (d : SessionPrivateKeyData)
    (h : store (bytesToHex keyId) = some d) (hown : d.privateAddress = privateAddress) :
    retrieveSessionKeyDataOrThrowError store keyId privateAddress = .ok d := by
  unfold retrieveSessionKeyDataOrThrowError
  dsimp only
  rw [h]
  dsimp only
  rw [if_neg (by simp [hown])]

/-- C1 (amended): `retrieveSessionKey` raises `UnknownKeyError` when the
record is missing, owned by another node, or bound to a different *non-empty*
peer (naming both addresses); it returns the stored key when the peer field
is absent, empty (JS falsy), or equal to the given peer.
`retrieveUnboundSessionKey` raises `UnknownKeyError` exactly when the stored
peer is a non-empty string. -/
theorem retrieveSessionKey_characterization :
    ∀ (store : SessionKeyBackend) (keyId : List Nat) (privateAddress peer : String)
      (keyIdHex : String), keyIdHex = bytesToHex keyId →
    (store keyIdHex = none →
      retrieveSessionKey store keyId privateAddress peer =
        .error (.UnknownKeyError s!"Key {keyIdHex} does not exist") ∧
      retrieveUnboundSessionKey store keyId privateAddress =
        .error (.UnknownKeyError s!"Key {keyIdHex} does not exist")) ∧
    (∀ d : SessionPrivateKeyData, store keyIdHex = some d →
      (d.privateAddress ≠ privateAddress →
        retrieveSessionKey store keyId privateAddress peer =
          .error (.UnknownKeyError "Key is owned by a different node") ∧
        retrieveUnboundSessionKey store keyId privateAddress =
          .error (.UnknownKeyError "Key is owned by a different node")) ∧
      (d.privateAddress = privateAddress →
        (∀ s : String, d.peerPrivateAddress = some s → s ≠ "" → peer ≠ s →
          retrieveSessionKey store keyId privateAddress peer =
            .error (.UnknownKeyError
              (s!"Session key {keyIdHex} is bound to another recipient " ++
                s!"({s}, not {peer})"))) ∧
        (∀ s : String, d.peerPrivateAddress = some s → s ≠ "" →
          retrieveUnboundSessionKey store keyId privateAddress =
            .error (.UnknownKeyError s!"Key {keyIdHex} is bound")) ∧
        (d.peerPrivateAddress = none ∨ d.peerPrivateAddress = some "" ∨
            d.peerPrivateAddress = some peer →
          retrieveSessionKey store keyId privateAddress peer = .ok d.keySerialized) ∧
        (d.peerPrivateAddress = none ∨ d.peerPrivateAddress = some "" →
          retrieveUnboundSessionKey store keyId privateAddress = .ok d.keySerialized))) := by
  intro store keyId privateAddress peer keyIdHex hhex
  constructor
  · intro hnone
    constructor
    · unfold retrieveSessionKey
      rw [retrieveSessionKeyDataOrThrowError_none store keyId privateAddress keyIdHex hhex hnone,
        except_error_bind]
    · unfold retrieveUnboundSessionKey
      rw [retrieveSessionKeyDataOrThrowError_none store keyId privateAddress keyIdHex hhex hnone,
        except_error_bind]
  · intro d hsome
    subst hhex
    constructor
    · intro hown
      constructor
      · unfold retrieveSessionKey
        rw [retrieveSessionKeyDataOrThrowError_wrong_owner store keyId privateAddress d hsome hown,
          except_error_bind]
      · unfold retrieveUnboundSessionKey
        rw [retrieveSessionKeyDataOrThrowError_wrong_owner store keyId privateAddress d hsome hown,
          except_error_bind]
    · intro hown
      have hfound := retrieveSessionKeyDataOrThrowError_found store keyId privateAddress d
        hsome hown
      refine ⟨?_, ?_, ?_, ?_⟩
      · intro s hs hsne hpne
        unfold retrieveSessionKey
        rw [hfound, except_ok_bind]
        dsimp only
        rw [hs]
        dsimp only
        rw [if_pos ⟨by simp [isEmpty_eq_false_of_ne s hsne], hpne⟩]
      · intro s hs hsne
        unfold retrieveUnboundSessionKey
        rw [hfound, except_ok_bind]
        dsimp only
        rw [if_pos (by simp [jsStrTruthy, hs, isEmpty_eq_false_of_ne s hsne])]
      · intro hcase
        unfold retrieveSessionKey
        rw [hfound, except_ok_bind]
        dsimp only
        rcases hcase with h | h | h
        · rw [h]
        · rw [h]
          dsimp only
          rw [if_neg fun hc => absurd hc.1 (by decide)]
        · rw [h]
          dsimp only
          rw [if_neg fun hc => hc.2 rfl]
      · intro hcase
        unfold retrieveUnboundSessionKey
        rw [hfound, except_ok_bind]
        dsimp only
        rcases hcase with h | h
        · rw [if_neg (by simp [jsStrTruthy, h])]
        · rw [if_neg (by rw [h]; decide)]

/-- A backend holding one session key owned by `0deadbeef` whose
`peerPrivateAddress` is the empty string. -/
def emptyPeerStore : SessionKeyBackend := fun keyIdHex =>
  if keyIdHex = "aa" then
    some { keySerialized := [1, 2, 3], privateAddress := "0deadbeef",
           peerPrivateAddress := some "" }
  else none

/-- Counterexample to C1 as stated: the stored record's `peerPrivateAddress`
is set (to `""`) and differs from the given peer `"0cafe"`, yet
`retrieveSessionKey` returns the key instead of raising `UnknownKeyError` —
and `retrieveUnboundSessionKey` also returns this peer-bound record, because
the code tests JS truthiness, not presence. -/
theorem retrieveSessionKey_empty_peer_counterexample :
    emptyPeerStore "aa" =
      some { keySerialized := [1, 2, 3], privateAddress := "0deadbeef",
             peerPrivateAddress := some "" } ∧
    (some "" ≠ (none : Option String)) ∧ ("" ≠ "0cafe") ∧
    retrieveSessionKey emptyPeerStore [0xaa] "0deadbeef" "0cafe" = .ok [1, 2, 3] ∧
    retrieveUnboundSessionKey emptyPeerStore [0xaa] "0deadbeef" = .ok [1, 2, 3] := by
  refine ⟨rfl, by decide, by decide, ?_, ?_⟩ <;> decide

/-- A backend holding one session key owned by `0aaa` and bound to the peer
`0bbb`. -/
def boundPeerStore : SessionKeyBackend := fun keyIdHex =>
  if keyIdHex = "bb" then
    some { keySerialized := [9], privateAddress := "0aaa",
           peerPrivateAddress := some "0bbb" }
  else none

/-- Witness for the amended C1 at concrete inputs. -/
theorem retrieveSessionKey_characterization_witness :
    retrieveSessionKey boundPeerStore [0xbb] "0aaa" "0ccc" =
      .error (.UnknownKeyError "Session key bb is bound to another recipient (0bbb, not 0ccc)") ∧
    retrieveUnboundSessionKey boundPeerStore [0xbb] "0aaa" =
      .error (.UnknownKeyError "Key bb is bound") ∧
    retrieveSessionKey boundPeerStore [0xbb] "0aaa" "0bbb" = .ok [9] ∧
    retrieveSessionKey boundPeerStore [0xcc] "0aaa" "0ccc" =
      .error (.UnknownKeyError "Key cc does not exist") := by
  have hmm := retrieveSessionKey_characterization boundPeerStore [0xbb] "0aaa" "0ccc" "bb"
    (by decide)
  have hok := retrieveSessionKey_characterization boundPeerStore [0xbb] "0aaa" "0bbb" "bb"
    (by decide)
  have hnone := retrieveSessionKey_characterization boundPeerStore [0xcc] "0aaa" "0ccc" "cc"
    (by decide)
  refine ⟨?_, ?_, ?_, ?_⟩
  · exact ((hmm.2 ⟨[9], "0aaa", some "0bbb"⟩ (by decide)).2 rfl).1 "0bbb" rfl (by decide)
      (by decide)
  · exact ((hmm.2 ⟨[9], "0aaa", some "0bbb"⟩ (by decide)).2 rfl).2.1 "0bbb" rfl (by decide)
  · exact ((hok.2 ⟨[9], "0aaa", some "0bbb"⟩ (by decide)).2 rfl).2.2.1
      (Or.inr (Or.inr rfl))
  · exact (hnone.1 (by decide)).1

/-! ## Claim C3: certificate issuance under an issuer -/

theorem validateIssuerCertificate_no_bc (issuer : PkijsCertificate)
    (h : issuer.extensions.filter (fun e => e.extnID == OID_BASIC_CONSTRAINTS) = []) :
    validateIssuerCertificate issuer =
      .error (.CertificateError "Basic constraints extension is missing from issuer certificate") := by
  unfold validateIssuerCertificate
  dsimp only
  rw [h]

theorem validateIssuerCertificate_not_ca (issuer : PkijsCertificate)
    (ext : CertExtension) (rest : List CertExtension) (pl : Nat)
    (hfilter : issuer.extensions.filter (fun e => e.extnID == OID_BASIC_CONSTRAINTS) = ext :: rest)
    (hval : ext.extnValue = .basicConstraints false pl) :
    validateIssuerCertificate issuer = .error (.CertificateError "Issuer is not a CA") := by
  unfold validateIssuerCertificate
  dsimp only
  rw [hfilter]
  dsimp only
  rw [hval]
  rfl

theorem validateIssuerCertificate_ca (issuer : PkijsCertificate)
    (ext : CertExtension) (rest : List CertExtension) (pl : Nat)
    (hfilter : issuer.extensions.filter (fun e => e.extnID == OID_BASIC_CONSTRAINTS) = ext :: rest)
    (hval : ext.extnValue = .basicConstraints true pl) :
    validateIssuerCertificate issuer = .ok () := by
  unfold validateIssuerCertificate
  dsimp only
  rw [hfilter]
  dsimp only
  rw [hval]
  rfl

/-- C3: for every certificate issued under an issuer certificate, the
end date is clamped to `min(validityEndDate, issuer.notAfter)` (then
truncated to whole seconds) before any validation — so `notAfter` never
exceeds the issuer's; the issuer DN is copied attribute by attribute from
the issuer's subject DN; and validation checks the clamped end date against
the start date first, the issuer's `BasicConstraints.cA` second, raising
`CertificateError` on either failure. -/
theorem certificateIssue_with_issuer :
    ∀ (now : Int) (random64 : List Nat) (options : FullCertificateIssuanceOptions)
      (issuer : PkijsCertificate),
    options.issuerCertificate = some issuer →
    ((∀ cert, certificateIssue now random64 options = .ok cert →
      cert.notAfter ≤ issuer.notAfter ∧
      cert.notAfter = setMilliseconds0 (min issuer.notAfter options.validityEndDate) ∧
      cert.issuer = issuer.subject) ∧
     (setMilliseconds0 (min issuer.notAfter options.validityEndDate) <
        setMilliseconds0 (options.validityStartDate.getD now) →
      certificateIssue now random64 options =
        .error (.CertificateError "The end date must be later than the start date")) ∧
     (¬ setMilliseconds0 (min issuer.notAfter options.validityEndDate) <
        setMilliseconds0 (options.validityStartDate.getD now) →
      (issuer.extensions.filter (fun e => e.extnID == OID_BASIC_CONSTRAINTS) = [] →
        certificateIssue now random64 options =
          .error (.CertificateError
            "Basic constraints extension is missing from issuer certificate")) ∧
      (∀ ext rest pl,
        issuer.extensions.filter (fun e => e.extnID == OID_BASIC_CONSTRAINTS) = ext :: rest →
        ext.extnValue = .basicConstraints false pl →
        certificateIssue now random64 options =
          .error (.CertificateError "Issuer is not a CA")))) := by
  intro now random64 options issuer hissuer
  refine ⟨?_, ?_, ?_⟩
  · intro cert h
    unfold certificateIssue at h
    rw [hissuer] at h
    dsimp only at h
    by_cases hdate : setMilliseconds0 (min issuer.notAfter options.validityEndDate) <
        setMilliseconds0 (options.validityStartDate.getD now)
    · rw [if_pos hdate] at h
      exact Except.noConfusion h
    · rw [if_neg hdate] at h
      cases hv : validateIssuerCertificate issuer with
      | error e => rw [hv, except_error_bind] at h; exact Except.noConfusion h
      | ok u =>
        cases u
        rw [hv, except_ok_bind] at h
        cases hm : makeBasicConstraintsExtension (options.isCA == some true)
            (options.pathLenConstraint.getD 0) with
        | error e => rw [hm, except_error_bind] at h; exact Except.noConfusion h
        | ok bc =>
          rw [hm, except_ok_bind] at h
          cases h
          refine ⟨?_, rfl, ?_⟩
          · dsimp only
            unfold setMilliseconds0
            omega
          · simp [cloneAsn1jsValue]
  · intro hdate
    unfold certificateIssue
    rw [hissuer]
    dsimp only
    rw [if_pos hdate]
  · intro hdate
    constructor
    · intro hfilter
      unfold certificateIssue
      rw [hissuer]
      dsimp only
      rw [if_neg hdate, validateIssuerCertificate_no_bc issuer hfilter, except_error_bind]
    · intro ext rest pl hfilter hval
      unfold certificateIssue
      rw [hissuer]
      dsimp only
      rw [if_neg hdate, validateIssuerCertificate_not_ca issuer ext rest pl hfilter hval,
        except_error_bind]

/-- A CA issuer certificate (BasicConstraints with `cA = true`). -/
def caIssuerCert : PkijsCertificate :=
  { version := 2, serialNumberValueHex := [1], notBefore := 0, notAfter := 400000,
    subject := [⟨OID_COMMON_NAME, .bmpString "root"⟩],
    issuer := [⟨OID_COMMON_NAME, .bmpString "root"⟩],
    extensions := [⟨OID_BASIC_CONSTRAINTS, true, .basicConstraints true 2⟩] }

/-- An issuer certificate that is not a CA (`cA = false`). -/
def nonCaIssuerCert : PkijsCertificate :=
  { caIssuerCert with
    extensions := [⟨OID_BASIC_CONSTRAINTS, true, .basicConstraints false 0⟩] }

/-- Issuance options requesting an end date past the issuer's `notAfter`. -/
def leafOptions : FullCertificateIssuanceOptions :=
  { commonName := "leaf", validityStartDate := some 1000, validityEndDate := 500000,
    issuerCertificate := some caIssuerCert, isCA := none, pathLenConstraint := none,
    issuerKeyDigest := [], subjectKeyDigest := [] }

/-- Witness for C3: the concrete leaf's end date is clamped to the issuer's
400000, its issuer DN equals the issuer's subject DN, the date check fires
first, and a non-CA issuer is rejected. -/
theorem certificateIssue_with_issuer_witness :
    (∃ cert, certificateIssue 0 [1, 2, 3, 4, 5, 6, 7, 8] leafOptions = .ok cert ∧
      cert.notAfter ≤ caIssuerCert.notAfter ∧ cert.notAfter = 400000 ∧
      cert.issuer = caIssuerCert.subject) ∧
    certificateIssue 0 [1, 2, 3, 4, 5, 6, 7, 8]
        { leafOptions with validityEndDate := 500, issuerCertificate := some nonCaIssuerCert } =
      .error (.CertificateError "The end date must be later than the start date") ∧
    certificateIssue 0 [1, 2, 3, 4, 5, 6, 7, 8]
        { leafOptions with issuerCertificate := some nonCaIssuerCert } =
      .error (.CertificateError "Issuer is not a CA") := by
  have h1 := certificateIssue_with_issuer 0 [1, 2, 3, 4, 5, 6, 7, 8] leafOptions
    caIssuerCert rfl
  have h2 := certificateIssue_with_issuer 0 [1, 2, 3, 4, 5, 6, 7, 8]
    { leafOptions with validityEndDate := 500, issuerCertificate := some nonCaIssuerCert }
    nonCaIssuerCert rfl
  have h3 := certificateIssue_with_issuer 0 [1, 2, 3, 4, 5, 6, 7, 8]
    { leafOptions with issuerCertificate := some nonCaIssuerCert } nonCaIssuerCert rfl
  refine ⟨?_, ?_, ?_⟩
  · have hok : certificateIssue 0 [1, 2, 3, 4, 5, 6, 7, 8] leafOptions =
        .ok { version := 2, serialNumberValueHex := [1, 2, 3, 4, 5, 6, 7, 8],
              notBefore := 1000, notAfter := 400000,
              subject := [⟨OID_COMMON_NAME, .bmpString "leaf"⟩],
              issuer := [⟨OID_COMMON_NAME, .bmpString "root"⟩],
              extensions := [⟨OID_BASIC_CONSTRAINTS, true, .basicConstraints false 0⟩,
                             ⟨OID_AUTHORITY_KEY, false, .keyIdentifier []⟩,
                             ⟨OID_SUBJECT_KEY, false, .keyIdentifier []⟩] } := by decide
    obtain ⟨ha, hb, hc⟩ := h1.1 _ hok
    exact ⟨_, hok, ha, by rw [hb]; decide, hc⟩
  · exact h2.2.1 (by decide)
  · exact (h3.2.2 (by decide)).2 ⟨OID_BASIC_CONSTRAINTS, true, .basicConstraints false 0⟩ [] 0
      (by decide) rfl

/-! ## Claim C8: positive serial numbers -/

theorem beBytesToNat_eq_zero_iff (l : List Nat) :
    beBytesToNat l = 0 ↔ ∀ b ∈ l, b = 0 := by
  induction l with
  | nil => simp [beBytesToNat]
  | cons b rest ih =>
    simp only [beBytesToNat, List.mem_cons]
    constructor
    · intro h
      have hb : b * 256 ^ rest.length = 0 := by omega
      have hp : 0 < 256 ^ rest.length := Nat.pos_pow_of_pos _ (by omega)
      have hb0 : b = 0 := by
        rcases Nat.mul_eq_zero.mp hb with h0 | h0
        · exact h0
        · omega
      refine fun x hx => ?_
      rcases hx with hx | hx
      · rw [hx]; exact hb0
      · exact (ih.mp (by omega)) x hx
    · intro h
      have hb0 : b = 0 := h b (Or.inl rfl)
      have hr : beBytesToNat rest = 0 := ih.mpr fun x hx => h x (Or.inr hx)
      rw [hb0, hr]
      simp

/-- C8 (amended): a `0x00` octet is prepended exactly when the most
significant bit of the first random octet is set; the resulting ASN.1
INTEGER always has the (nonnegative) value of the 64-bit random string read
big-endian — so it is strictly positive exactly when the random value is
nonzero, and it is zero for the all-zero random value. -/
theorem generatePositiveASN1Integer_nonneg :
    ∀ (signedInteger : List Nat), signedInteger.length = 8 →
    (∀ b ∈ signedInteger, b < 256) →
    (generatePositiveASN1Integer signedInteger =
      if 128 ≤ signedInteger.headD 0 then 0 :: signedInteger else signedInteger) ∧
    asn1IntegerValue (generatePositiveASN1Integer signedInteger) =
      (beBytesToNat signedInteger : Int) ∧
    0 ≤ asn1IntegerValue (generatePositiveASN1Integer signedInteger) ∧
    ((∃ b ∈ signedInteger, b ≠ 0) ↔
      0 < asn1IntegerValue (generatePositiveASN1Integer signedInteger)) := by
  intro signedInteger hlen hbytes
  obtain ⟨b, rest, hcons⟩ : ∃ b rest, signedInteger = b :: rest := by
    cases signedInteger with
    | nil => simp at hlen
    | cons b rest => exact ⟨b, rest, rfl⟩
  subst hcons
  simp only [List.headD_cons]
  have hvalue : asn1IntegerValue (generatePositiveASN1Integer (b :: rest)) =
      (beBytesToNat (b :: rest) : Int) := by
    unfold generatePositiveASN1Integer
    simp only [List.headD_cons]
    by_cases hmsb : 127 < b
    · rw [if_pos hmsb]
      unfold asn1IntegerValue
      dsimp only
      rw [if_neg (by omega : ¬ 128 ≤ 0)]
      have h2 : beBytesToNat (0 :: b :: rest) = beBytesToNat (b :: rest) := by
        show 0 * 256 ^ (b :: rest).length + beBytesToNat (b :: rest) = beBytesToNat (b :: rest)
        omega
      rw [h2]
    · rw [if_neg hmsb]
      unfold asn1IntegerValue
      dsimp only
      rw [if_neg (by omega : ¬ 128 ≤ b)]
  refine ⟨?_, hvalue, ?_, ?_⟩
  · unfold generatePositiveASN1Integer
    simp only [List.headD_cons]
    by_cases hmsb : 128 ≤ b
    · rw [if_pos (by omega : 127 < b), if_pos hmsb]
    · rw [if_neg (by omega : ¬ 127 < b), if_neg hmsb]
  · rw [hvalue]
    exact Int.natCast_nonneg _
  · rw [hvalue]
    constructor
    · rintro ⟨x, hx, hxne⟩
      have hnz : beBytesToNat (b :: rest) ≠ 0 := fun hz =>
        hxne ((beBytesToNat_eq_zero_iff (b :: rest)).mp hz x hx)
      omega
    · intro hpos
      by_contra hall
      push_neg at hall
      have h0 : beBytesToNat (b :: rest) = 0 :=
        (beBytesToNat_eq_zero_iff (b :: rest)).mpr hall
      omega

/-- Counterexample to C8 as stated: the all-zero 64-bit random value yields
the INTEGER 0, which is not strictly greater than zero. -/
theorem generatePositiveASN1Integer_zero_counterexample :
    generatePositiveASN1Integer [0, 0, 0, 0, 0, 0, 0, 0] = [0, 0, 0, 0, 0, 0, 0, 0] ∧
    asn1IntegerValue (generatePositiveASN1Integer [0, 0, 0, 0, 0, 0, 0, 0]) = 0 ∧
    ¬ 0 < asn1IntegerValue (generatePositiveASN1Integer [0, 0, 0, 0, 0, 0, 0, 0]) := by
  refine ⟨by decide, by decide, by decide⟩

/-- Witness for the amended C8 at two concrete random values (MSB set and
clear). -/
theorem generatePositiveASN1Integer_nonneg_witness :
    generatePositiveASN1Integer [0x80, 0, 0, 0, 0, 0, 0, 1] =
      0 :: [0x80, 0, 0, 0, 0, 0, 0, 1] ∧
    0 < asn1IntegerValue (generatePositiveASN1Integer [0x80, 0, 0, 0, 0, 0, 0, 1]) ∧
    generatePositiveASN1Integer [1, 0, 0, 0, 0, 0, 0, 0] = [1, 0, 0, 0, 0, 0, 0, 0] ∧
    0 < asn1IntegerValue (generatePositiveASN1Integer [1, 0, 0, 0, 0, 0, 0, 0]) := by
  have h1 := generatePositiveASN1Integer_nonneg [0x80, 0, 0, 0, 0, 0, 0, 1] (by decide)
    (by decide)
  have h2 := generatePositiveASN1Integer_nonneg [1, 0, 0, 0, 0, 0, 0, 0] (by decide)
    (by decide)
  refine ⟨?_, ?_, ?_, ?_⟩
  · rw [h1.1]
    decide
  · exact h1.2.2.2.mp ⟨0x80, by decide, by decide⟩
  · rw [h2.1]
    decide
  · exact h2.2.2.2.mp ⟨1, by decide, by decide⟩

/-! ## Claim C5: EnvelopedData failure modes -/

/-- C5 (amended): `EnvelopedData.deserialize` raises a CMS error whenever
the `RecipientInfo` count differs from 1 or the sole variant is neither 1
nor 2 (and selects the sessionless/session class for 1/2);
`getOriginatorKey` raises a CMS error when the originator-key-id
unprotected attribute is absent; `getAesKeySize` (and thus encryption)
raises a CMS error for every *nonzero* AES key size outside {128, 192, 256}
— a key size of 0 is JS-falsy and silently falls back to the 128 default. -/
theorem envelopedData_failure_modes :
    (∀ (parseContentInfo : List Nat → Except String ParsedContentInfo)
       (input : List Nat) (ed : PkijsEnvelopedData),
      parseContentInfo input = .ok ⟨OID_CMS_ENVELOPED_DATA, some ed⟩ →
      (ed.recipientInfos.length ≠ 1 →
        ∃ m, envelopedDataDeserialize parseContentInfo input = .error ⟨m⟩) ∧
      (∀ ri : RecipientInfo, ed.recipientInfos = [ri] →
        (ri.variant ≠ 1 → ri.variant ≠ 2 →
          ∃ m, envelopedDataDeserialize parseContentInfo input = .error ⟨m⟩) ∧
        (ri.variant = 1 →
          envelopedDataDeserialize parseContentInfo input = .ok (.sessionless, ed)) ∧
        (ri.variant = 2 →
          envelopedDataDeserialize parseContentInfo input = .ok (.session, ed)))) ∧
    (∀ ed : PkijsEnvelopedData,
      (ed.unprotectedAttrs.getD []).filter
          (fun a => a.type == OID_ORIGINATOR_EPHEMERAL_CERT_SERIAL_NUMBER) = [] →
      ∃ m, getOriginatorKey ed = .error ⟨m⟩) ∧
    (∀ n : Int, n ≠ 0 → ¬ n ∈ AES_KEY_SIZES →
      getAesKeySize (some n) = .error ⟨s!"Invalid AES key size ({n})"⟩ ∧
      (∀ (pkijsEncrypt : Int → List Nat → PkijsEnvelopedData) (plaintext : List Nat),
        sessionlessEncrypt pkijsEncrypt plaintext (some n) =
          .error ⟨s!"Invalid AES key size ({n})"⟩) ∧
      (∀ (pkijsEncrypt : Int → List Nat → List RecipientInfo)
         (dhKeyId plaintext : List Nat),
        sessionEncrypt pkijsEncrypt dhKeyId plaintext (some n) =
          .error ⟨s!"Invalid AES key size ({n})"⟩)) := by
  refine ⟨?_, ?_, ?_⟩
  · intro parseContentInfo input ed hparse
    have hbase : envelopedDataDeserialize parseContentInfo input =
        selectEnvelopedDataClass ed := by
      unfold envelopedDataDeserialize
      rw [hparse]
      rfl
    constructor
    · intro hcount
      rw [hbase]
      unfold selectEnvelopedDataClass
      dsimp only
      rw [if_pos hcount]
      exact ⟨_, rfl⟩
    · intro ri hri
      have hhead : ed.recipientInfos.headD ⟨0⟩ = ri := by rw [hri]; rfl
      have hlen1 : ¬ ed.recipientInfos.length ≠ 1 := by rw [hri]; simp
      refine ⟨?_, ?_, ?_⟩
      · intro h1 h2
        rw [hbase]
        unfold selectEnvelopedDataClass
        dsimp only
        rw [if_neg hlen1, hhead, if_pos ⟨h1, h2⟩]
        exact ⟨_, rfl⟩
      · intro h1
        rw [hbase]
        unfold selectEnvelopedDataClass
        dsimp only
        rw [if_neg hlen1, hhead, if_neg (by simp [h1]), if_pos h1]
      · intro h2
        rw [hbase]
        unfold selectEnvelopedDataClass
        dsimp only
        rw [if_neg hlen1, hhead, if_neg (by simp [h2]), if_neg (by simp [h2])]
  · intro ed hfilter
    unfold getOriginatorKey extractOriginatorKeyId
    dsimp only
    by_cases hempty : (ed.unprotectedAttrs.getD []).length = 0
    · rw [if_pos hempty, except_error_bind]
      exact ⟨_, rfl⟩
    · rw [if_neg hempty, hfilter, except_error_bind]
      exact ⟨_, rfl⟩
  · intro n hn hnotin
    have hkey : getAesKeySize (some n) = .error ⟨s!"Invalid AES key size ({n})"⟩ := by
      unfold getAesKeySize
      rw [if_pos ⟨by simp [jsNumTruthy, hn], by simpa using hnotin⟩]
      rfl
    refine ⟨hkey, ?_, ?_⟩
    · intro pkijsEncrypt plaintext
      unfold sessionlessEncrypt
      rw [hkey, except_error_bind]
    · intro pkijsEncrypt dhKeyId plaintext
      unfold sessionEncrypt
      dsimp only
      rw [hkey, except_error_bind]

/-- Counterexample to C5 as stated: an AES key size of 0 is outside
{128, 192, 256}, yet `getAesKeySize` raises no CMS error — `0` is JS-falsy,
so both encrypt variants silently fall back to AES-128. -/
theorem aesKeySize_zero_counterexample :
    ((0 : Int) ∉ AES_KEY_SIZES) ∧
    getAesKeySize (some 0) = .ok 128 ∧
    sessionlessEncrypt (fun _ _ => ⟨[⟨1⟩], none⟩) [7] (some 0) = .ok ⟨[⟨1⟩], none⟩ := by
  refine ⟨by decide, by decide, by decide⟩

/-- Witness for the amended C5 at concrete inputs. -/
theorem envelopedData_failure_modes_witness :
    (∃ m, envelopedDataDeserialize
      (fun _ => .ok ⟨OID_CMS_ENVELOPED_DATA, some ⟨[], none⟩⟩) [1] = .error ⟨m⟩) ∧
    (∃ m, envelopedDataDeserialize
      (fun _ => .ok ⟨OID_CMS_ENVELOPED_DATA, some ⟨[⟨3⟩], none⟩⟩) [1] = .error ⟨m⟩) ∧
    envelopedDataDeserialize
      (fun _ => .ok ⟨OID_CMS_ENVELOPED_DATA, some ⟨[⟨1⟩], none⟩⟩) [1] =
      .ok (.sessionless, ⟨[⟨1⟩], none⟩) ∧
    envelopedDataDeserialize
      (fun _ => .ok ⟨OID_CMS_ENVELOPED_DATA, some ⟨[⟨2⟩], none⟩⟩) [1] =
      .ok (.session, ⟨[⟨2⟩], none⟩) ∧
    (∃ m, getOriginatorKey ⟨[⟨2⟩], none⟩ = .error ⟨m⟩) ∧
    getAesKeySize (some 64) = .error ⟨"Invalid AES key size (64)"⟩ := by
  refine ⟨?_, ?_, ?_, ?_, ?_, ?_⟩
  · exact ((envelopedData_failure_modes.1 _ [1] ⟨[], none⟩ rfl).1 (by decide))
  · exact ((envelopedData_failure_modes.1 _ [1] ⟨[⟨3⟩], none⟩ rfl).2 ⟨3⟩ rfl).1
      (by decide) (by decide)
  · exact ((envelopedData_failure_modes.1 _ [1] ⟨[⟨1⟩], none⟩ rfl).2 ⟨1⟩ rfl).2.1 rfl
  · exact ((envelopedData_failure_modes.1 _ [1] ⟨[⟨2⟩], none⟩ rfl).2 ⟨2⟩ rfl).2.2 rfl
  · exact envelopedData_failure_modes.2.1 ⟨[⟨2⟩], none⟩ rfl
  · exact (envelopedData_failure_modes.2.2 64 (by decide) (by decide)).1

/-! ## Claim C6: cargo creation time and TTL -/

/-- C6: every cargo built by `generateCargoes` has a creation date equal to
the batch-time clock minus exactly 3 hours with the sub-second component
cleared (equivalently: the truncation of `now − 3 h`), and a ttl equal to
`min(⌊(expiry − creation)/1000⌋, 15_552_000)`; with now =
2025-06-15T12:00:00Z (epoch ms 1_749_988_800_000) the creation date is
2025-06-15T09:00:00Z (epoch ms 1_749_978_000_000). -/
theorem generateCargoes_cargo_timing :
    ∀ now expiryDate : Int,
    (generateCargoForBatch now expiryDate).creationDate =
      (now - now % 1000) - 3 * 60 * 60 * 1000 ∧
    (generateCargoForBatch now expiryDate).creationDate =
      setMilliseconds0 (now - 3 * 60 * 60 * 1000) ∧
    (generateCargoForBatch now expiryDate).ttl =
      min (Int.fdiv (expiryDate - (generateCargoForBatch now expiryDate).creationDate) 1000)
        15552000 ∧
    (now = 1749988800000 →
      (generateCargoForBatch now expiryDate).creationDate = 1749978000000) := by
  intro now expiryDate
  refine ⟨rfl, ?_, rfl, ?_⟩
  · show (now - now % 1000) - 3 * 60 * 60 * 1000 =
      (now - 3 * 60 * 60 * 1000) - (now - 3 * 60 * 60 * 1000) % 1000
    omega
  · intro hnow
    subst hnow
    show (1749988800000 - 1749988800000 % 1000 : Int) - 3 * 60 * 60 * 1000 = 1749978000000
    decide

/-- Witness for C6 at the concrete clock 2025-06-15T12:00:00Z and a batch
expiring 5000.7 seconds later. -/
theorem generateCargoes_cargo_timing_witness :
    (generateCargoForBatch 1749988800000 1749993800700).creationDate = 1749978000000 ∧
    (generateCargoForBatch 1749988800000 1749993800700).ttl = 15800 ∧
    (generateCargoForBatch 1749988800000 (1749978000000 + 20000000000000)).ttl =
      15552000 := by
  have h := generateCargoes_cargo_timing 1749988800000 1749993800700
  have h2 := generateCargoes_cargo_timing 1749988800000 (1749978000000 + 20000000000000)
  refine ⟨h.2.2.2 rfl, ?_, ?_⟩
  · rw [h.2.2.1, h.1]
    decide
  · rw [h2.2.2.1, h2.1]
    decide

/-! ## Claim C10: certificate deserialization performs no validation -/

/-- C10: `Certificate.deserialize` succeeds on every DER input that parses
as an X.509 certificate, with no semantic validation — expiry, maturity and
version are checked only by an explicit `validate()` call, which raises
`CertificateError` for a non-v3 version, a future `notBefore`, or a past
`notAfter`, in that order. -/
theorem certificateDeserialize_no_validation :
    ∀ (parse : List Nat → Option PkijsCertificate) (certDer : List Nat)
      (cert : PkijsCertificate) (now : Int),
    parse certDer = some cert →
    certificateDeserialize parse certDer = .ok cert ∧
    (cert.version ≠ 2 → ∀ shownVersion : Nat, shownVersion = cert.version + 1 →
      certificateValidate now cert =
        .error (.CertificateError
          s!"Only X.509 v3 certificates are supported (got v{shownVersion})")) ∧
    (cert.version = 2 → now < cert.notBefore →
      certificateValidate now cert = .error (.CertificateError "Certificate is not yet valid")) ∧
    (cert.version = 2 → cert.notBefore ≤ now → cert.notAfter < now →
      certificateValidate now cert =
        .error (.CertificateError "Certificate already expired")) ∧
    (cert.version = 2 → cert.notBefore ≤ now → now ≤ cert.notAfter →
      certificateValidate now cert = .ok ()) := by
  intro parse certDer cert now hparse
  refine ⟨?_, ?_, ?_, ?_, ?_⟩
  · unfold certificateDeserialize
    rw [hparse]
  · intro hver shownVersion hshown
    subst hshown
    unfold certificateValidate
    rw [if_pos (by omega)]
  · intro hver hbefore
    unfold certificateValidate
    rw [if_neg (by omega), if_pos hbefore]
  · intro hver hbefore hafter
    unfold certificateValidate
    rw [if_neg (by omega), if_neg (by omega), if_pos hafter]
  · intro hver hbefore hafter
    unfold certificateValidate
    rw [if_neg (by omega), if_neg (by omega), if_neg (by omega)]

/-- Witness for C10: a parsed certificate that is both expired and v3
deserializes fine and fails only `validate()`. -/
theorem certificateDeserialize_no_validation_witness :
    certificateDeserialize
      (fun _ => some { version := 2, serialNumberValueHex := [1], notBefore := 0,
                       notAfter := 1000, subject := [], issuer := [], extensions := [] })
      [0x30] =
      .ok { version := 2, serialNumberValueHex := [1], notBefore := 0, notAfter := 1000,
            subject := [], issuer := [], extensions := [] } ∧
    certificateValidate 5000
        { version := 2, serialNumberValueHex := [1], notBefore := 0, notAfter := 1000,
          subject := [], issuer := [], extensions := [] } =
      .error (.CertificateError "Certificate already expired") ∧
    certificateValidate 5000
        { version := 0, serialNumberValueHex := [1], notBefore := 0, notAfter := 1000,
          subject := [], issuer := [], extensions := [] } =
      .error (.CertificateError "Only X.509 v3 certificates are supported (got v1)") := by
  have h := certificateDeserialize_no_validation
    (fun _ => some { version := 2, serialNumberValueHex := [1], notBefore := 0,
                     notAfter := 1000, subject := [], issuer := [], extensions := [] })
    [0x30]
    { version := 2, serialNumberValueHex := [1], notBefore := 0, notAfter := 1000,
      subject := [], issuer := [], extensions := [] } 5000 rfl
  have h2 := certificateDeserialize_no_validation
    (fun _ => some { version := 0, serialNumberValueHex := [1], notBefore := 0,
                     notAfter := 1000, subject := [], issuer := [], extensions := [] })
    [0x30]
    { version := 0, serialNumberValueHex := [1], notBefore := 0, notAfter := 1000,
      subject := [], issuer := [], extensions := [] } 5000 rfl
  exact ⟨h.1, h.2.2.2.1 rfl (by decide) (by decide),
    h2.2.1 (by decide) 1 rfl⟩

end Relaynet
